import Mathlib

/-!
# vOP: the vehicle operation platform supervisor

A shallow embedding of `src/vOP/vOP.cpp` (class `vOP`, declared in
`src/trunk/vOP/vOP.h`) and theorems about it.

Conventions of the embedding

* The target is the AVR Arduino the sketch is written for: `byte` is 8 bits,
  `int` / `unsigned int` are 16 bits, `long` / `unsigned long` are 32 bits.
  Machine integers are natural numbers (integers for `long`), reduced
  explicitly where the C++ code can wrap.
* `millis()` is the argument `now` of every operation that reads the clock; one
  call of an operation sees one clock value.
* `Wire.available()` / `Wire.read()` are the list of bytes of one delivery
  event; `Wire.write(writer, 4)` is the list returned by `fillRequest`.
* `digitalRead(PIN_IGNITION)` is the argument `pin_ignition`;
  `digitalWrite(PIN_RASPI_RELAY, _)` is the field `pin_raspi_relay`
  (`true` = `HIGH`).
* The three function-local `static` variables of `debounceIgnition` are fields
  of the state.
* `debugIt` / `debugItDEC` only print to the serial line and are left out, as
  are the members that no method reads (`i2c_address`, `debug_mode`,
  `watchdog_shutdown_initiated`, `shutdown_request_mode`,
  `shutdown_request_at`).
-/

/-! ## Constants (`#define`s of `vOP.cpp`) -/

def MAX_COMMAND_PARAMETERS : Nat := 3
def END_OF_COMMAND : Nat := 10

def CMD_GET_IGNITION_STATE : Nat := 11
def CMD_GET_LAST_IGNITION_CHANGE_SECONDS : Nat := 12
def CMD_GET_LAST_IGNITION_CHANGE_MINUTES : Nat := 13
def CMD_ECHO : Nat := 14
def CMD_PAT_WATCHDOG : Nat := 15
def CMD_DEBUG_SET_IGN_DETECT : Nat := 100
def CMD_DEBUG_SET_IGN_STATE : Nat := 101
def CMD_DEBUG_GET_IGN_DETECT : Nat := 102
def CMD_DEBUG_GET_TEST_VALUE : Nat := 103
def CMD_DEBUG_GET_WDT_STATE : Nat := 104

def ERR_BUFFER_OVERFLOW : Nat := 1
def ERR_COMMAND_UNKNOWN : Nat := 2
def ERR_COMMAND_INCOMPLETE : Nat := 3

def CHECK_IGNITION_INTERVAL : Nat := 50
def CHECK_IGNITION_RETRIES : Nat := 3

def WATCHDOG_STATE_WATCHING : Nat := 0
def WATCHDOG_STATE_SHUTDOWN : Nat := 1
def WATCHDOG_STATE_BOOTING : Nat := 2
def WATCHDOG_STATE_IDLE : Nat := 3

/-! ## Machine arithmetic -/

/-- The value `millis()` returns for the clock value `now`: an `unsigned long`. -/
def millis (now : Nat) : Nat := now % 4294967296

/-- Unsigned 32-bit subtraction, `(unsigned long)(a - b)`. -/
def subUL (a b : Nat) : Nat :=
  (a % 4294967296 + (4294967296 - b % 4294967296)) % 4294967296

/-- Unsigned 32-bit addition, as in `x += y` on an `unsigned long`. -/
def addUL (a b : Nat) : Nat := (a + b) % 4294967296

/-- Product of two `unsigned int`s, as in `interval*1000`: 16 bits. -/
def mulUI (a b : Nat) : Nat := (a * b) % 65536

/-- Increment of a `byte`, as in `test++`. -/
def incByte (a : Nat) : Nat := (a + 1) % 256

/-- Conversion of an `unsigned long` to `long` (two's complement). -/
def toLong (x : Nat) : Int :=
  if x % 4294967296 < 2147483648 then ((x % 4294967296 : Nat) : Int)
  else ((x % 4294967296 : Nat) : Int) - 4294967296

/-- Result of a `long` operation whose mathematical value is `i`, wrapped to 32 bits. -/
def wrapLong (i : Int) : Int := toLong (i % 4294967296).toNat

/-- Conversion of a `long` to `unsigned int`, `(unsigned int)delta`. -/
def longToUI (i : Int) : Nat := (i % 65536).toNat

/-- Conversion of a `bool` to an integer. -/
def boolToNat (b : Bool) : Nat := if b then 1 else 0

/-! ## The state: the data members of `class vOP` -/

structure vOP where
  test : Nat
  error_flag : Nat
  command : Nat
  param_buffer0 : Nat
  param_buffer1 : Nat
  command_complete : Nat
  debug_ign_debounce : Nat
  ignition_state : Bool
  ignition_delta_time : Nat
  raspberry_power : Bool
  watchdog_state : Nat
  watchdog_mode : Bool
  watchdog_last_pat : Nat
  watchdog_timeout_interval : Nat
  watchdog_turnoff_interval : Nat
  watchdog_turnoff_time : Nat
  watchdog_next_run : Nat
  watchdog_run_interval : Nat
  watchdog_boot_time : Nat
  watchdog_boot_interval : Nat
  power_minimum_off_interval : Nat
  power_minimum_off_time : Nat
  pin_raspi_relay : Bool
  debounce_next_ignition_time : Nat
  debounce_last_ignition_state : Nat
  debounce_counter_ignition : Nat
  deriving DecidableEq, Repr

namespace vOP

/-- The constructor `vOP::vOP()`. The array `param_buffer` is not initialised by
the constructor; its two bytes are the arguments. -/
def construct (param0 param1 : Nat) : vOP where
  test := 1
  error_flag := 0
  command := 1
  param_buffer0 := param0
  param_buffer1 := param1
  command_complete := 1
  debug_ign_debounce := 1
  ignition_state := false
  ignition_delta_time := 0
  raspberry_power := false
  watchdog_state := WATCHDOG_STATE_IDLE
  watchdog_mode := true
  watchdog_last_pat := 0
  watchdog_timeout_interval := 20
  watchdog_turnoff_interval := 30
  watchdog_turnoff_time := 0
  watchdog_next_run := 0
  watchdog_run_interval := 5
  watchdog_boot_time := 0
  watchdog_boot_interval := 60
  power_minimum_off_interval := 5
  power_minimum_off_time := 0
  pin_raspi_relay := true
  debounce_next_ignition_time := 0
  debounce_last_ignition_state := 0
  debounce_counter_ignition := 0

/-- `vOP::bootUpHandler`. -/
def bootUpHandler (s : vOP) (now : Nat) : vOP :=
  if !s.raspberry_power then
    if s.ignition_state then
      if subUL (millis now) s.power_minimum_off_time ≥ mulUI s.power_minimum_off_interval 1000 then
        { s with
          pin_raspi_relay := false
          raspberry_power := true
          watchdog_state := WATCHDOG_STATE_BOOTING
          watchdog_boot_time := millis now }
      else s
    else s
  else s

/-- `vOP::shutDownHandler`. -/
def shutDownHandler (s : vOP) (now : Nat) : vOP :=
  { s with
    pin_raspi_relay := true
    power_minimum_off_time := millis now
    raspberry_power := false }

/-- The `switch(watchdog_state)` of `vOP::watchDog`. -/
def watchDogCheck (s : vOP) (now : Nat) : vOP :=
  if s.watchdog_state = WATCHDOG_STATE_WATCHING then
    if subUL (millis now) s.watchdog_last_pat ≥ mulUI s.watchdog_timeout_interval 1000 then
      { s with
        test := incByte s.test
        watchdog_state := WATCHDOG_STATE_SHUTDOWN
        watchdog_turnoff_time := millis now }
    else s
  else if s.watchdog_state = WATCHDOG_STATE_SHUTDOWN then
    if subUL (millis now) s.watchdog_turnoff_time ≥ mulUI s.watchdog_turnoff_interval 1000 then
      { shutDownHandler { s with test := incByte s.test } now with
        watchdog_state := WATCHDOG_STATE_IDLE }
    else s
  else if s.watchdog_state = WATCHDOG_STATE_BOOTING then
    if subUL (millis now) s.watchdog_boot_time ≥ mulUI s.watchdog_boot_interval 1000 then
      { shutDownHandler s now with watchdog_state := WATCHDOG_STATE_IDLE }
    else s
  else s

/-- `vOP::watchDog`. -/
def watchDog (s : vOP) (now : Nat) : vOP :=
  if s.watchdog_mode then
    if subUL (millis now) s.watchdog_next_run ≥ mulUI s.watchdog_run_interval 1000 then
      let s1 := watchDogCheck s now
      { s1 with
        watchdog_next_run := addUL s1.watchdog_next_run (mulUI s1.watchdog_run_interval 1000) }
    else s
  else s

/-- `vOP::resetWatchDog`. -/
def resetWatchDog (s : vOP) (now : Nat) : vOP :=
  { s with
    watchdog_last_pat := millis now
    watchdog_state := WATCHDOG_STATE_WATCHING }

/-- `vOP::ignitionChangedLast`: the arithmetic is done in (signed) `long`, the
division truncates towards zero, and the result is converted to `unsigned int`. -/
def ignitionChangedLast (s : vOP) (now : Nat) (seconds : Bool) : Nat :=
  let now_l : Int := toLong (millis now)
  let last : Int := toLong s.ignition_delta_time
  let delta : Int := wrapLong (now_l - last)
  let delta : Int := Int.tdiv delta 1000
  let delta : Int := if !seconds then Int.tdiv delta 60 else delta
  longToUI delta

/-- The locals of `vOP::fillRequest` after its command handler has run. -/
structure FillLocals where
  use_int : Bool
  result_data : Nat
  return_buffer0 : Nat
  return_buffer1 : Nat
  deriving DecidableEq, Repr

/-- The `switch (command)` of `vOP::fillRequest`. The locals start as
`use_int = true`, `result_data = 0`; `return_buffer` is assigned before it is
read on every path, its initial content is taken as 0. -/
def dispatchCommand (s : vOP) (now : Nat) : vOP × FillLocals :=
  let l : FillLocals := ⟨true, 0, 0, 0⟩
  if s.command = CMD_GET_IGNITION_STATE then
    (s, { l with result_data := boolToNat s.ignition_state })
  else if s.command = CMD_GET_LAST_IGNITION_CHANGE_SECONDS then
    (s, { l with result_data := ignitionChangedLast s now true })
  else if s.command = CMD_GET_LAST_IGNITION_CHANGE_MINUTES then
    (s, { l with result_data := ignitionChangedLast s now false })
  else if s.command = CMD_ECHO then
    (s, { l with use_int := false
                 return_buffer0 := s.param_buffer0
                 return_buffer1 := s.param_buffer1 })
  else if s.command = CMD_PAT_WATCHDOG then
    (resetWatchDog s now, l)
  else if s.command = CMD_DEBUG_SET_IGN_DETECT then
    ({ s with debug_ign_debounce := s.param_buffer0 }, l)
  else if s.command = CMD_DEBUG_SET_IGN_STATE then
    if boolToNat s.ignition_state ≠ s.param_buffer0 then
      ({ s with ignition_state := decide (s.param_buffer0 ≠ 0)
                ignition_delta_time := millis now }, l)
    else (s, l)
  else if s.command = CMD_DEBUG_GET_IGN_DETECT then
    (s, { l with result_data := s.debug_ign_debounce })
  else if s.command = CMD_DEBUG_GET_TEST_VALUE then
    (s, { l with result_data := s.test })
  else if s.command = CMD_DEBUG_GET_WDT_STATE then
    (s, { l with result_data := s.watchdog_state })
  else
    ({ s with error_flag := ERR_COMMAND_UNKNOWN }, { l with result_data := 0 })

/-- `vOP::fillRequest`: the new state and the four bytes handed to `Wire.write`. -/
def fillRequest (s : vOP) (now : Nat) : vOP × List Nat :=
  let r : vOP × FillLocals :=
    if s.command_complete = 1 then
      if s.error_flag = 0 then dispatchCommand s now
      else (s, ⟨true, 0, 0, 0⟩)
    else ({ s with error_flag := ERR_COMMAND_INCOMPLETE }, ⟨true, 0, 0, 0⟩)
  let s1 := r.1
  let l := r.2
  let l : FillLocals :=
    if l.use_int then
      { l with return_buffer0 := (l.result_data / 256) % 256
               return_buffer1 := l.result_data % 256 }
    else l
  let writer : List Nat := [s1.error_flag, s1.command, l.return_buffer0, l.return_buffer1]
  ({ s1 with error_flag := 0 }, writer)

/-- The assignment `param_buffer[i] = v` for the two elements of the array. -/
def setParam (s : vOP) (i v : Nat) : vOP :=
  if i = 0 then { s with param_buffer0 := v }
  else if i = 1 then { s with param_buffer1 := v }
  else s

/-- One iteration of the `while (Wire.available())` loop of `vOP::receiveData`:
the state and the `byte buffer_index` after the iteration. -/
def receiveByte (s : vOP) (buffer_index : Nat) (wire_byte : Nat) : vOP × Nat :=
  let inbyte := wire_byte % 256
  let s := { s with command_complete := 0 }
  let s :=
    if buffer_index = 0 then
      if inbyte ≠ END_OF_COMMAND then { s with command := inbyte }
      else { s with command_complete := 1 }
    else
      if buffer_index < MAX_COMMAND_PARAMETERS then setParam s (buffer_index - 1) inbyte
      else { s with error_flag := ERR_BUFFER_OVERFLOW }
  (s, incByte buffer_index)

/-- The `while (Wire.available())` loop of `vOP::receiveData`. -/
def receiveLoop : vOP → Nat → List Nat → vOP
  | s, _, [] => s
  | s, buffer_index, b :: bs =>
    receiveLoop (receiveByte s buffer_index b).1 (receiveByte s buffer_index b).2 bs

/-- `vOP::receiveData`: one delivery event carrying `bytes`. -/
def receiveData (s : vOP) (bytes : List Nat) : vOP := receiveLoop s 0 bytes

/-- `vOP::debounceIgnition`. -/
def debounceIgnition (s : vOP) (now : Nat) (pin_ignition : Bool) : vOP :=
  if subUL (millis now) s.debounce_next_ignition_time ≥ CHECK_IGNITION_INTERVAL then
    let now_ignition : Bool := pin_ignition
    let s1 : vOP :=
      if boolToNat now_ignition = s.debounce_last_ignition_state then
        let s2 := { s with debounce_counter_ignition := incByte s.debounce_counter_ignition }
        if s2.debounce_counter_ignition ≥ CHECK_IGNITION_RETRIES then
          let s3 := { s2 with debounce_counter_ignition := 0 }
          if s3.ignition_state ≠ now_ignition then
            { s3 with ignition_state := now_ignition
                      ignition_delta_time := millis now }
          else s3
        else s2
      else { s with debounce_counter_ignition := 0 }
    { s1 with
      debounce_last_ignition_state := boolToNat now_ignition
      debounce_next_ignition_time := addUL s1.debounce_next_ignition_time CHECK_IGNITION_INTERVAL }
  else s

/-- `vOP::loop`: debounce, then watchdog, then boot. -/
def loop (s : vOP) (now : Nat) (pin_ignition : Bool) : vOP :=
  let s1 := if s.debug_ign_debounce ≠ 0 then debounceIgnition s now pin_ignition else s
  bootUpHandler (watchDog s1 now) now

/-- The opcodes that have a `case` in the `switch (command)` of `vOP::fillRequest`. -/
def knownCommands : List Nat :=
  [CMD_GET_IGNITION_STATE, CMD_GET_LAST_IGNITION_CHANGE_SECONDS,
   CMD_GET_LAST_IGNITION_CHANGE_MINUTES, CMD_ECHO, CMD_PAT_WATCHDOG,
   CMD_DEBUG_SET_IGN_DETECT, CMD_DEBUG_SET_IGN_STATE, CMD_DEBUG_GET_IGN_DETECT,
   CMD_DEBUG_GET_TEST_VALUE, CMD_DEBUG_GET_WDT_STATE]

/-- The two guards of `vOP::watchDog`: watchdog mode is on and a run interval has
elapsed since `watchdog_next_run`, so this call executes a check. -/
def watchDogDue (s : vOP) (now : Nat) : Bool :=
  s.watchdog_mode &&
    decide (subUL (millis now) s.watchdog_next_run ≥ mulUI s.watchdog_run_interval 1000)

/-- The state `s1` is the state `s` up to the field `watchdog_next_run`. -/
def sameButNextRun (s s1 : vOP) : Prop :=
  s1 = { s with watchdog_next_run := s1.watchdog_next_run }

/-- Successive calls of `vOP::watchDog` at the clock values `ts`, nothing else
running in between. -/
def watchDogPolls (s : vOP) (ts : List Nat) : vOP := ts.foldl watchDog s

/-- A sample run up to the first pat: constructor, ignition forced on by opcode
101, boot at 5000 ms, pat (opcode 15) at 6000 ms. The state is in the watching
phase, powered, with the default configuration. -/
def firstPatExample : vOP :=
  (fillRequest
    (receiveData
      (receiveData
        (bootUpHandler
          (fillRequest (receiveData (receiveData (construct 0 0) [101, 1, 0]) [10]) 0).1 5000)
        [15, 0, 0])
      [10])
    6000).1

/-- The guard of `vOP::debounceIgnition`: a poll interval has elapsed since
`debounce_next_ignition_time`, so this call reads the ignition pin. -/
def debounceDue (s : vOP) (now : Nat) : Bool :=
  decide (subUL (millis now) s.debounce_next_ignition_time ≥ CHECK_IGNITION_INTERVAL)

/-- Successive calls of `vOP::debounceIgnition` at the clock values `ts`, the
ignition pin reading `v` at every call, nothing else running in between. -/
def debounceRun (s : vOP) (v : Bool) (ts : List Nat) : vOP :=
  ts.foldl (fun s1 t => debounceIgnition s1 t v) s

/-- The number of consecutive samples equal to `v` after which the counter of
`debounceIgnition` reaches `CHECK_IGNITION_RETRIES`, from the accumulator of
`s`: four when the previous sample differs from `v` (the first sample only
resets the counter), otherwise as many as the counter still needs. -/
def samplesToLatch (s : vOP) (v : Bool) : Nat :=
  if boolToNat v = s.debounce_last_ignition_state then
    (if incByte s.debounce_counter_ignition ≥ CHECK_IGNITION_RETRIES then 1
     else 4 - incByte s.debounce_counter_ignition)
  else 4

/-- The state `s1` is the state `s` up to the fields `vOP::receiveData` assigns:
`command`, `param_buffer`, `command_complete` and `error_flag`. -/
def sameButFrame (s s1 : vOP) : Prop :=
  s1 = { s with command := s1.command
                param_buffer0 := s1.param_buffer0
                param_buffer1 := s1.param_buffer1
                command_complete := s1.command_complete
                error_flag := s1.error_flag }

/-- A sample run up to the boot: constructor, ignition forced on by opcode 101,
boot at 5000 ms. The state is in the booting phase, powered, with the default
configuration. -/
def bootingExample : vOP :=
  bootUpHandler
    (fillRequest (receiveData (receiveData (construct 0 0) [101, 1, 0]) [10]) 0).1 5000

/-- The events that drive the supervisor: one iteration of `vOP::loop` (with the
clock value and the level of the ignition pin it reads), one delivery event
(`vOP::receiveData` with the bytes on the wire), one fill event
(`vOP::fillRequest` with the clock value it reads). -/
inductive Event where
  | iteration (now : Nat) (pin_ignition : Bool)
  | delivery (bytes : List Nat)
  | request (now : Nat)
  deriving DecidableEq, Repr

/-- The state after one event. -/
def step (s : vOP) : Event → vOP
  | Event.iteration now pin_ignition => loop s now pin_ignition
  | Event.delivery bytes => receiveData s bytes
  | Event.request now => (fillRequest s now).1

/-- The state after a sequence of events. -/
def run (s : vOP) (es : List Event) : vOP := es.foldl step s

/-- Power and watchdog phase agree: idle only when unpowered, booting only when
powered. -/
def powerConsistent (s : vOP) : Prop :=
  (s.watchdog_state = WATCHDOG_STATE_IDLE → s.raspberry_power = false) ∧
  (s.watchdog_state = WATCHDOG_STATE_BOOTING → s.raspberry_power = true)

end vOP

/-! ## Arithmetic facts used by the theorems -/

/-- The 32-bit unsigned difference is the integer difference modulo 2^32. -/
theorem subUL_eq_emod (a b : Nat) :
    ((subUL a b : Nat) : Int) = ((a : Int) - (b : Int)) % 2 ^ 32 := by
  unfold subUL
  omega

theorem subUL_millis (a b : Nat) : subUL (millis a) b = subUL a b := by
  unfold subUL millis
  omega

theorem millis_of_lt {now : Nat} (h : now < 2 ^ 32) : millis now = now := by
  unfold millis
  omega

namespace vOP

/-! ## Protocol handler -/

/-- C1. Echo round trip: from a state with no pending error, the delivery event
`[14, a, b]`, then the delivery event `[10]`, then a fill event write exactly
`[0, 14, a, b]`, for all bytes `a` and `b`. -/
theorem echo_round_trip (s : vOP) (a b now : Nat) (ha : a < 256) (hb : b < 256)
    (herr : s.error_flag = 0) :
    (fillRequest (receiveData (receiveData s [14, a, b]) [10]) now).2 = [0, 14, a, b] := by
  have ha' : a % 256 = a := Nat.mod_eq_of_lt ha
  have hb' : b % 256 = b := Nat.mod_eq_of_lt hb
  simp [fillRequest, receiveData, receiveLoop, receiveByte, setParam, incByte, dispatchCommand,
    END_OF_COMMAND, MAX_COMMAND_PARAMETERS, CMD_GET_IGNITION_STATE,
    CMD_GET_LAST_IGNITION_CHANGE_SECONDS, CMD_GET_LAST_IGNITION_CHANGE_MINUTES, CMD_ECHO,
    herr, ha', hb']

theorem echo_round_trip_witness :
    (0x41 < 256 ∧ 0x42 < 256 ∧ (construct 0 0).error_flag = 0) ∧
    (fillRequest (receiveData (receiveData (construct 0 0) [14, 0x41, 0x42]) [10]) 7).2
      = [0, 14, 0x41, 0x42] :=
  ⟨by decide, echo_round_trip (construct 0 0) 0x41 0x42 7 (by decide) (by decide) (by decide)⟩

/-- For any opcode without a case in the switch the command handler raises
`ERR_COMMAND_UNKNOWN` and does nothing else. -/
theorem dispatchCommand_error_unknown (s : vOP) (now : Nat) (hk : s.command ∉ knownCommands) :
    (dispatchCommand s now).1 = { s with error_flag := ERR_COMMAND_UNKNOWN } ∧
    (dispatchCommand s now).2 = ⟨true, 0, 0, 0⟩ := by
  simp only [knownCommands, List.mem_cons, List.mem_singleton, List.not_mem_nil, or_false,
    not_or] at hk
  obtain ⟨h1, h2, h3, h4, h5, h6, h7, h8, h9, h10⟩ := hk
  unfold dispatchCommand
  dsimp only
  rw [if_neg h1, if_neg h2, if_neg h3, if_neg h4, if_neg h5, if_neg h6, if_neg h7, if_neg h8,
    if_neg h9, if_neg h10]
  exact ⟨rfl, rfl⟩

/-- For an opcode that has a case in the switch the command handler leaves the
stored opcode, the complete flag and the error field as they are. -/
theorem dispatchCommand_known (s : vOP) (now : Nat) (hk : s.command ∈ knownCommands) :
    (dispatchCommand s now).1.command = s.command ∧
    (dispatchCommand s now).1.command_complete = s.command_complete ∧
    (dispatchCommand s now).1.error_flag = s.error_flag := by
  simp only [knownCommands, List.mem_cons, List.mem_singleton, List.not_mem_nil, or_false] at hk
  rcases hk with h | h | h | h | h | h | h | h | h | h
  all_goals
    simp [dispatchCommand, h, CMD_GET_IGNITION_STATE,
      CMD_GET_LAST_IGNITION_CHANGE_SECONDS, CMD_GET_LAST_IGNITION_CHANGE_MINUTES, CMD_ECHO,
      CMD_PAT_WATCHDOG, CMD_DEBUG_SET_IGN_DETECT, CMD_DEBUG_SET_IGN_STATE,
      CMD_DEBUG_GET_IGN_DETECT, CMD_DEBUG_GET_TEST_VALUE, CMD_DEBUG_GET_WDT_STATE,
      resetWatchDog]
  all_goals (split <;> simp [h, CMD_DEBUG_SET_IGN_STATE])

/-- Summary of the three facts above. -/
theorem dispatchCommand_frame (s : vOP) (now : Nat) :
    (dispatchCommand s now).1.command = s.command ∧
    (dispatchCommand s now).1.command_complete = s.command_complete ∧
    (s.error_flag = 0 →
      (dispatchCommand s now).1.error_flag = if s.command ∈ knownCommands then 0 else 2) := by
  by_cases hk : s.command ∈ knownCommands
  · obtain ⟨h1, h2, h3⟩ := dispatchCommand_known s now hk
    exact ⟨h1, h2, fun h0 => by rw [if_pos hk, h3, h0]⟩
  · rw [if_neg hk, (dispatchCommand_error_unknown s now hk).1]
    exact ⟨rfl, rfl, fun _ => rfl⟩

/-- The first byte written by a fill event is the error field after the frame
check and the command handler. -/
theorem fillRequest_head (s : vOP) (now : Nat) :
    (fillRequest s now).2.head? = some
      (if s.command_complete = 1 then
        (if s.error_flag = 0 then (dispatchCommand s now).1.error_flag else s.error_flag)
       else ERR_COMMAND_INCOMPLETE) := by
  unfold fillRequest
  split_ifs <;> simp_all

/-- A fill event keeps the stored opcode and the complete flag and clears the
error field. -/
theorem fillRequest_frame (s : vOP) (now : Nat) :
    (fillRequest s now).1.command = s.command ∧
    (fillRequest s now).1.command_complete = s.command_complete ∧
    (fillRequest s now).1.error_flag = 0 := by
  have h := dispatchCommand_frame s now
  unfold fillRequest
  split_ifs <;> simp_all

/-- The fill event of a complete frame without pending error answers error 0
for the opcodes that have a case in the switch. -/
theorem fill_error_of_known (s : vOP) (now : Nat) (hc : s.command_complete = 1)
    (herr : s.error_flag = 0) (hk : s.command ∈ knownCommands) :
    (fillRequest s now).2.head? = some 0 := by
  rw [fillRequest_head, if_pos hc, if_pos herr, (dispatchCommand_frame s now).2.2 herr, if_pos hk]

/-- Eta for the two fields `receiveData` rewrites on an overflowing byte. -/
theorem overflow_fields_eq (s : vOP) (hc : s.command_complete = 0)
    (he : s.error_flag = ERR_BUFFER_OVERFLOW) :
    { s with command_complete := 0, error_flag := ERR_BUFFER_OVERFLOW } = s := by
  cases s
  simp_all

/-- Once the index is past the parameter slots, the remaining bytes of a
delivery event change nothing, as long as the 8-bit index does not wrap. -/
theorem receiveLoop_overflow (bs : List Nat) :
    ∀ (s : vOP) (i : Nat), 3 ≤ i → i + bs.length ≤ 256 → s.command_complete = 0 →
      s.error_flag = ERR_BUFFER_OVERFLOW → receiveLoop s i bs = s := by
  induction bs with
  | nil => intro s i _ _ _ _; rfl
  | cons b bs ih =>
    intro s i hi hlen hc he
    have hstep : receiveByte s i b = (s, incByte i) := by
      have h0 : i ≠ 0 := by omega
      have h3 : ¬ i < 3 := by omega
      simp [receiveByte, h0, h3, MAX_COMMAND_PARAMETERS, overflow_fields_eq s hc he]
    rw [receiveLoop, hstep]
    cases bs with
    | nil => rfl
    | cons b2 bs2 =>
      have hlen2 : i + 1 + (b2 :: bs2).length ≤ 256 := by
        simp only [List.length_cons] at hlen ⊢
        omega
      have hinc : incByte i = i + 1 := by
        simp only [List.length_cons] at hlen2
        unfold incByte
        omega
      simp only [hinc]
      exact ih s (i + 1) (by omega) hlen2 hc he

/-- C2, as stated, fails: after the single delivery event `[14, 65, 66, 10]` the
frame is not complete and a buffer overflow is pending, because the terminator
is only recognised at index 0 of a delivery event. -/
theorem frame_in_one_event_counterexample :
    ¬ ((receiveData (construct 0 0) [14, 65, 66, 10]).command_complete = 1 ∧
       (receiveData (construct 0 0) [14, 65, 66, 10]).command = 14 ∧
       (receiveData (construct 0 0) [14, 65, 66, 10]).param_buffer0 = 65 ∧
       (receiveData (construct 0 0) [14, 65, 66, 10]).param_buffer1 = 66 ∧
       (receiveData (construct 0 0) [14, 65, 66, 10]).error_flag = 0) := by
  decide

/-- C2, amended. The command `[opcode, param0, param1, 10]` is received as two
delivery events, `[c, p0, p1]` and then the terminator `[10]`: from a state with
no pending error the frame is then complete with opcode `c`, parameters `p0`,
`p1` and no pending error, the following fill event runs the command handler on
it, and it answers error 0 for a recognised `c`. The same four bytes in a
single delivery event leave the frame incomplete with `ERR_BUFFER_OVERFLOW`
pending. -/
theorem frame_in_two_events (s : vOP) (c p0 p1 now : Nat) (hc : c < 256) (hc10 : c ≠ 10)
    (hp0 : p0 < 256) (hp1 : p1 < 256) (herr : s.error_flag = 0) :
    ((receiveData (receiveData s [c, p0, p1]) [10]).command_complete = 1 ∧
     (receiveData (receiveData s [c, p0, p1]) [10]).command = c ∧
     (receiveData (receiveData s [c, p0, p1]) [10]).param_buffer0 = p0 ∧
     (receiveData (receiveData s [c, p0, p1]) [10]).param_buffer1 = p1 ∧
     (receiveData (receiveData s [c, p0, p1]) [10]).error_flag = 0) ∧
    (fillRequest (receiveData (receiveData s [c, p0, p1]) [10]) now).1 =
      { (dispatchCommand (receiveData (receiveData s [c, p0, p1]) [10]) now).1 with
        error_flag := 0 } ∧
    (c ∈ knownCommands →
      (fillRequest (receiveData (receiveData s [c, p0, p1]) [10]) now).2.head? = some 0) ∧
    ((receiveData s [c, p0, p1, 10]).command_complete = 0 ∧
     (receiveData s [c, p0, p1, 10]).error_flag = ERR_BUFFER_OVERFLOW) := by
  have hc' : c % 256 = c := Nat.mod_eq_of_lt hc
  have hp0' : p0 % 256 = p0 := Nat.mod_eq_of_lt hp0
  have hp1' : p1 % 256 = p1 := Nat.mod_eq_of_lt hp1
  have hst : (receiveData (receiveData s [c, p0, p1]) [10]).command_complete = 1 ∧
     (receiveData (receiveData s [c, p0, p1]) [10]).command = c ∧
     (receiveData (receiveData s [c, p0, p1]) [10]).param_buffer0 = p0 ∧
     (receiveData (receiveData s [c, p0, p1]) [10]).param_buffer1 = p1 ∧
     (receiveData (receiveData s [c, p0, p1]) [10]).error_flag = 0 := by
    simp [receiveData, receiveLoop, receiveByte, setParam, incByte, END_OF_COMMAND,
      MAX_COMMAND_PARAMETERS, herr, hc', hp0', hp1', hc10]
  refine ⟨hst, ?_, ?_, ?_⟩
  · simp [fillRequest, hst.1, hst.2.2.2.2]
  · intro hk
    exact fill_error_of_known _ now hst.1 hst.2.2.2.2 (by rw [hst.2.1]; exact hk)
  · simp [receiveData, receiveLoop, receiveByte, setParam, incByte, END_OF_COMMAND,
      MAX_COMMAND_PARAMETERS, ERR_BUFFER_OVERFLOW, hc', hc10]

theorem frame_in_two_events_witness :
    (14 < 256 ∧ 14 ≠ 10 ∧ 65 < 256 ∧ 66 < 256 ∧ (construct 0 0).error_flag = 0) ∧
    (receiveData (receiveData (construct 0 0) [14, 65, 66]) [10]).command_complete = 1 ∧
    (receiveData (construct 0 0) [14, 65, 66, 10]).error_flag = ERR_BUFFER_OVERFLOW :=
  ⟨by decide,
   (frame_in_two_events (construct 0 0) 14 65 66 0 (by decide) (by decide) (by decide)
      (by decide) (by decide)).1.1,
   (frame_in_two_events (construct 0 0) 14 65 66 0 (by decide) (by decide) (by decide)
      (by decide) (by decide)).2.2.2.2⟩

/-- C3. Incomplete command: when the frame is not complete, a fill event writes
exactly `[3, stored opcode, 0, 0]` and runs no command handler: the state after
it is the state before it with the error field cleared, so ignition latch,
`ignition_delta_time`, watchdog phase, last pat, debounce-enable flag, test
counter and power state are unchanged. -/
theorem fill_incomplete (s : vOP) (now : Nat) (h : s.command_complete ≠ 1) :
    (fillRequest s now).2 = [3, s.command, 0, 0] ∧
    (fillRequest s now).1 = { s with error_flag := 0 } := by
  simp [fillRequest, h, ERR_COMMAND_INCOMPLETE]

theorem fill_incomplete_witness :
    (receiveData (construct 0 0) [14, 65, 66]).command_complete ≠ 1 ∧
    (fillRequest (receiveData (construct 0 0) [14, 65, 66]) 5).2 = [3, 14, 0, 0] :=
  ⟨by decide, (fill_incomplete (receiveData (construct 0 0) [14, 65, 66]) 5 (by decide)).1⟩

/-- C4. Unknown opcode: with a complete frame, no pending error and a stored
opcode outside the ten recognised ones, a fill event writes exactly
`[2, opcode, 0, 0]` and leaves the whole state as it was. -/
theorem fill_unknown (s : vOP) (now : Nat) (hc : s.command_complete = 1)
    (herr : s.error_flag = 0)
    (hk : s.command ∉ [11, 12, 13, 14, 15, 100, 101, 102, 103, 104]) :
    (fillRequest s now).2 = [2, s.command, 0, 0] ∧ (fillRequest s now).1 = s := by
  simp only [List.mem_cons, List.mem_singleton, List.not_mem_nil, or_false, not_or] at hk
  obtain ⟨h1, h2, h3, h4, h5, h6, h7, h8, h9, h10⟩ := hk
  cases s
  simp_all [fillRequest, dispatchCommand, CMD_GET_IGNITION_STATE,
    CMD_GET_LAST_IGNITION_CHANGE_SECONDS, CMD_GET_LAST_IGNITION_CHANGE_MINUTES, CMD_ECHO,
    CMD_PAT_WATCHDOG, CMD_DEBUG_SET_IGN_DETECT, CMD_DEBUG_SET_IGN_STATE,
    CMD_DEBUG_GET_IGN_DETECT, CMD_DEBUG_GET_TEST_VALUE, CMD_DEBUG_GET_WDT_STATE,
    ERR_COMMAND_UNKNOWN]

theorem fill_unknown_witness :
    ((receiveData (receiveData (construct 0 0) [99, 0, 0]) [10]).command_complete = 1 ∧
     (receiveData (receiveData (construct 0 0) [99, 0, 0]) [10]).error_flag = 0 ∧
     (receiveData (receiveData (construct 0 0) [99, 0, 0]) [10]).command ∉
       [11, 12, 13, 14, 15, 100, 101, 102, 103, 104]) ∧
    (fillRequest (receiveData (receiveData (construct 0 0) [99, 0, 0]) [10]) 0).2
      = [2, 99, 0, 0] :=
  ⟨by decide,
   (fill_unknown (receiveData (receiveData (construct 0 0) [99, 0, 0]) [10]) 0
      (by decide) (by decide) (by decide)).1⟩

set_option maxRecDepth 100000 in
/-- C5, as stated, fails: the index of `receiveData` is a `byte`, so in a
delivery event of 257 bytes the byte at position 256 is taken as a new opcode.
After the event `15, 0, ..., 0, 14`, the event `[10]` and a fill event the
response names opcode 14, not 15. -/
theorem overflow_long_event_counterexample :
    ¬ ((fillRequest
          (receiveData (receiveData (construct 0 0) (15 :: (List.replicate 255 0 ++ [14]))) [10])
          0).2 = [1, 15, 0, 0]) := by
  decide

/-- C5, amended to delivery events of at most 256 bytes. For every opcode `c`
other than 10 and every delivery event `c, p0, p1, x, rest` of 4 to 256 bytes,
followed by the delivery event `[10]` and a fill event, the response is exactly
`[1, c, 0, 0]` and no command handler runs: the final state is the initial one
with only the frame fields rewritten (opcode `c`, the two parameter bytes,
complete, no error), so watchdog, ignition, power and debug fields are as they
were. -/
theorem overflow_reported (s : vOP) (c p0 p1 x : Nat) (rest : List Nat) (now : Nat)
    (hc : c < 256) (hc10 : c ≠ 10) (hlen : (c :: p0 :: p1 :: x :: rest).length ≤ 256) :
    (fillRequest (receiveData (receiveData s (c :: p0 :: p1 :: x :: rest)) [10]) now).2
      = [1, c, 0, 0] ∧
    (fillRequest (receiveData (receiveData s (c :: p0 :: p1 :: x :: rest)) [10]) now).1
      = { s with command := c, param_buffer0 := p0 % 256, param_buffer1 := p1 % 256,
                 command_complete := 1, error_flag := 0 } := by
  have hc' : c % 256 = c := Nat.mod_eq_of_lt hc
  simp only [List.length_cons] at hlen
  have hrest := receiveLoop_overflow rest
    { s with command := c, param_buffer0 := p0 % 256, param_buffer1 := p1 % 256,
             command_complete := 0, error_flag := ERR_BUFFER_OVERFLOW } 4 (by omega) (by omega)
    rfl rfl
  have hev : receiveData s (c :: p0 :: p1 :: x :: rest) =
      { s with command := c, param_buffer0 := p0 % 256, param_buffer1 := p1 % 256,
               command_complete := 0, error_flag := ERR_BUFFER_OVERFLOW } := by
    simp [receiveData, receiveLoop, receiveByte, setParam, incByte, END_OF_COMMAND,
      MAX_COMMAND_PARAMETERS, hc', hc10]
    exact hrest
  rw [hev]
  simp [receiveData, receiveLoop, receiveByte, fillRequest, END_OF_COMMAND, ERR_BUFFER_OVERFLOW]

theorem overflow_reported_witness :
    (15 < 256 ∧ 15 ≠ 10 ∧ ([15, 1, 2, 3, 4] : List Nat).length ≤ 256) ∧
    (fillRequest (receiveData (receiveData (construct 0 0) [15, 1, 2, 3, 4]) [10]) 9).2
      = [1, 15, 0, 0] :=
  ⟨by decide,
   (overflow_reported (construct 0 0) 15 1 2 3 [4] 9 (by decide) (by decide) (by decide)).1⟩

/-- C6, as stated, fails: with an incomplete frame the first fill event answers
`ERR_COMMAND_INCOMPLETE`, and so does the second one. -/
theorem error_once_counterexample :
    ¬ ((fillRequest (receiveData (construct 0 0) [14, 65, 66]) 0).2.head? ≠ some 0 →
       (fillRequest (fillRequest (receiveData (construct 0 0) [14, 65, 66]) 0).1 0).2.head?
         = some 0) := by
  decide

/-- C6, amended. The stored error is cleared by the fill event, and the error of
the next fill event is computed afresh from the frame: if a fill event's
response carries a non-zero error code and a second fill event follows with no
delivery event in between, the second response carries error code 0 when the
frame is complete and the stored opcode is a recognised one, error code 3 again
when the frame is not complete, and error code 2 when the frame is complete and
the opcode is not recognised. -/
theorem error_after_fill (s : vOP) (now1 now2 : Nat)
    (_h : (fillRequest s now1).2.head? ≠ some 0) :
    (fillRequest (fillRequest s now1).1 now2).2.head? = some
      (if s.command_complete = 1 then (if s.command ∈ knownCommands then 0 else 2) else 3) := by
  obtain ⟨h1, h2, h3⟩ := fillRequest_frame s now1
  rw [fillRequest_head, h2, h3, if_pos rfl, (dispatchCommand_frame _ now2).2.2 h3, h1]
  rfl

theorem error_after_fill_witness :
    (fillRequest (receiveData (receiveData (construct 0 0) [15, 1, 2, 3]) [10]) 0).2.head?
      ≠ some 0 ∧
    (fillRequest (fillRequest
      (receiveData (receiveData (construct 0 0) [15, 1, 2, 3]) [10]) 0).1 1).2.head? = some 0 :=
  ⟨by decide,
   error_after_fill (receiveData (receiveData (construct 0 0) [15, 1, 2, 3]) [10]) 0 1
     (by decide)⟩

/-- While the elapsed time is below 2^31 ms the signed difference computed by
`ignitionChangedLast` is the unsigned elapsed time. -/
theorem wrapLong_sub_eq (now last : Nat) (h : subUL now last < 2 ^ 31) :
    wrapLong (toLong (millis now) - toLong last) = ((subUL now last : Nat) : Int) := by
  unfold wrapLong toLong millis
  unfold subUL at h ⊢
  split_ifs <;> omega

theorem longToUI_natCast (k : Nat) : longToUI ((k : Nat) : Int) = k % 65536 := by
  unfold longToUI
  omega

/-- Value of `ignitionChangedLast` while the elapsed time is below 2^31 ms. -/
theorem ignitionChangedLast_eq (s : vOP) (now : Nat)
    (h : subUL now s.ignition_delta_time < 2 ^ 31) :
    ignitionChangedLast s now true = (subUL now s.ignition_delta_time / 1000) % 65536 ∧
    ignitionChangedLast s now false = subUL now s.ignition_delta_time / 1000 / 60 := by
  have hw := wrapLong_sub_eq now s.ignition_delta_time h
  constructor
  · simp only [ignitionChangedLast, hw, Bool.not_true, Bool.false_eq_true, if_false]
    rw [show Int.tdiv ((subUL now s.ignition_delta_time : Nat) : Int) 1000
        = ((subUL now s.ignition_delta_time / 1000 : Nat) : Int) from rfl]
    exact longToUI_natCast _
  · simp only [ignitionChangedLast, hw, Bool.not_false, if_true]
    rw [show Int.tdiv (Int.tdiv ((subUL now s.ignition_delta_time : Nat) : Int) 1000) 60
        = ((subUL now s.ignition_delta_time / 1000 / 60 : Nat) : Int) from rfl]
    rw [longToUI_natCast]
    omega

/-- C7, as stated, fails: the payload is two bytes, so 65536 seconds after the
change the response for opcode 12 carries 0, not 65536. -/
theorem ignition_elapsed_counterexample :
    ¬ (256 * (fillRequest (receiveData (receiveData (construct 0 0) [12, 0, 0]) [10])
                65536000).2.getD 2 0
         + (fillRequest (receiveData (receiveData (construct 0 0) [12, 0, 0]) [10])
                65536000).2.getD 3 0
       = subUL 65536000
           (receiveData (receiveData (construct 0 0) [12, 0, 0]) [10]).ignition_delta_time
         / 1000) := by
  decide

/-- C7, amended. Let `e = (now - ignition_delta_time) mod 2^32`. While
`e < 2^31` (the difference is computed in signed `long`),
`ignitionChangedLast(true)` is `floor(e/1000)` reduced modulo 2^16 (the result
is an `unsigned int`), which is `floor(e/1000)` itself while `e < 65536000`, and
`ignitionChangedLast(false)` is `floor(floor(e/1000)/60)`; the fill response for
opcodes 12 and 13 carries that number in its two payload bytes, high byte
first. -/
theorem ignition_elapsed_payload (s : vOP) (now : Nat)
    (h : subUL now s.ignition_delta_time < 2 ^ 31) :
    ignitionChangedLast s now true = (subUL now s.ignition_delta_time / 1000) % 65536 ∧
    (subUL now s.ignition_delta_time < 65536000 →
      ignitionChangedLast s now true = subUL now s.ignition_delta_time / 1000) ∧
    ignitionChangedLast s now false = subUL now s.ignition_delta_time / 1000 / 60 ∧
    (s.command_complete = 1 → s.error_flag = 0 → s.command = 12 →
      (fillRequest s now).2 =
        [0, 12, ignitionChangedLast s now true / 256, ignitionChangedLast s now true % 256] ∧
      256 * (ignitionChangedLast s now true / 256) + ignitionChangedLast s now true % 256
        = (subUL now s.ignition_delta_time / 1000) % 65536) ∧
    (s.command_complete = 1 → s.error_flag = 0 → s.command = 13 →
      (fillRequest s now).2 =
        [0, 13, ignitionChangedLast s now false / 256, ignitionChangedLast s now false % 256] ∧
      256 * (ignitionChangedLast s now false / 256) + ignitionChangedLast s now false % 256
        = subUL now s.ignition_delta_time / 1000 / 60) := by
  obtain ⟨hs, hm⟩ := ignitionChangedLast_eq s now h
  refine ⟨hs, ?_, hm, ?_, ?_⟩
  · intro hlt
    rw [hs]
    omega
  · intro hc herr hcmd
    have hlt : ignitionChangedLast s now true / 256 % 256 = ignitionChangedLast s now true / 256 := by
      rw [hs]
      omega
    constructor
    · simp [fillRequest, dispatchCommand, hc, herr, hcmd, hlt, CMD_GET_IGNITION_STATE,
        CMD_GET_LAST_IGNITION_CHANGE_SECONDS]
    · rw [hs]
      omega
  · intro hc herr hcmd
    have hlt : ignitionChangedLast s now false / 256 % 256
        = ignitionChangedLast s now false / 256 := by
      rw [hm]
      omega
    constructor
    · simp [fillRequest, dispatchCommand, hc, herr, hcmd, hlt, CMD_GET_IGNITION_STATE,
        CMD_GET_LAST_IGNITION_CHANGE_SECONDS, CMD_GET_LAST_IGNITION_CHANGE_MINUTES]
    · rw [hm]
      omega

theorem ignition_elapsed_payload_witness :
    subUL 1500 ({ construct 0 0 with ignition_delta_time := 4294966796 }).ignition_delta_time
      < 2 ^ 31 ∧
    ignitionChangedLast { construct 0 0 with ignition_delta_time := 4294966796 } 1500 true
      = (subUL 1500 4294966796 / 1000) % 65536 ∧
    subUL 1500 4294966796 = 2000 :=
  ⟨by decide,
   (ignition_elapsed_payload { construct 0 0 with ignition_delta_time := 4294966796 } 1500
      (by decide)).1,
   by decide⟩

/-! ## Watchdog and power sequencer -/

/-- `watchDog` in terms of its guards, its switch and the advance of
`watchdog_next_run`. -/
theorem watchDog_eq (s : vOP) (now : Nat) :
    watchDog s now =
      if watchDogDue s now = true then
        { watchDogCheck s now with
          watchdog_next_run := addUL (watchDogCheck s now).watchdog_next_run
            (mulUI (watchDogCheck s now).watchdog_run_interval 1000) }
      else s := by
  unfold watchDog watchDogDue
  cases hm : s.watchdog_mode <;> simp

theorem sameButNextRun_refl (s : vOP) : sameButNextRun s s := by
  cases s
  rfl

theorem sameButNextRun_trans {a b c : vOP} (h1 : sameButNextRun a b) (h2 : sameButNextRun b c) :
    sameButNextRun a c := by
  unfold sameButNextRun at *
  rw [h2, h1]

/-- A call of `watchDog` whose switch changes nothing changes at most
`watchdog_next_run`. -/
theorem watchDog_quiet (s : vOP) (now : Nat)
    (h : watchDogDue s now = true → watchDogCheck s now = s) :
    sameButNextRun s (watchDog s now) := by
  rw [watchDog_eq]
  by_cases hd : watchDogDue s now = true
  · rw [if_pos hd, h hd]
    rfl
  · rw [if_neg hd]
    exact sameButNextRun_refl s

/-- In the watching phase the switch does nothing before the timeout. -/
theorem watchDogCheck_watching (s : vOP) (now : Nat)
    (hst : s.watchdog_state = WATCHDOG_STATE_WATCHING)
    (h : subUL now s.watchdog_last_pat < mulUI s.watchdog_timeout_interval 1000) :
    watchDogCheck s now = s := by
  have hnot : ¬ subUL (millis now) s.watchdog_last_pat
      ≥ mulUI s.watchdog_timeout_interval 1000 := by
    rw [subUL_millis]
    omega
  simp [watchDogCheck, hst, hnot]

/-- In the shutdown-pending phase the switch does nothing before the turn-off
interval has elapsed. -/
theorem watchDogCheck_shutdown (s : vOP) (now : Nat)
    (hst : s.watchdog_state = WATCHDOG_STATE_SHUTDOWN)
    (h : subUL now s.watchdog_turnoff_time < mulUI s.watchdog_turnoff_interval 1000) :
    watchDogCheck s now = s := by
  have hnot : ¬ subUL (millis now) s.watchdog_turnoff_time
      ≥ mulUI s.watchdog_turnoff_interval 1000 := by
    rw [subUL_millis]
    omega
  simp [watchDogCheck, hst, hnot, WATCHDOG_STATE_SHUTDOWN, WATCHDOG_STATE_WATCHING]

/-- A due call in the watching phase at or after the timeout enters the
shutdown-pending phase. -/
theorem watchDog_watching_fire (s : vOP) (now : Nat) (hnow : now < 2 ^ 32)
    (hd : watchDogDue s now = true) (hst : s.watchdog_state = WATCHDOG_STATE_WATCHING)
    (h : subUL now s.watchdog_last_pat ≥ mulUI s.watchdog_timeout_interval 1000) :
    watchDog s now =
      { s with test := incByte s.test
               watchdog_state := WATCHDOG_STATE_SHUTDOWN
               watchdog_turnoff_time := now
               watchdog_next_run :=
                 addUL s.watchdog_next_run (mulUI s.watchdog_run_interval 1000) } := by
  have hge : subUL (millis now) s.watchdog_last_pat
      ≥ mulUI s.watchdog_timeout_interval 1000 := by
    rw [subUL_millis]
    exact h
  have hc : watchDogCheck s now =
      { s with test := incByte s.test
               watchdog_state := WATCHDOG_STATE_SHUTDOWN
               watchdog_turnoff_time := now } := by
    unfold watchDogCheck
    rw [if_pos hst, if_pos hge, millis_of_lt hnow]
  rw [watchDog_eq, if_pos hd, hc]

/-- A due call in the shutdown-pending phase at or after the turn-off interval
runs the shutdown action and goes idle. -/
theorem watchDog_shutdown_fire (s : vOP) (now : Nat) (hnow : now < 2 ^ 32)
    (hd : watchDogDue s now = true) (hst : s.watchdog_state = WATCHDOG_STATE_SHUTDOWN)
    (h : subUL now s.watchdog_turnoff_time ≥ mulUI s.watchdog_turnoff_interval 1000) :
    watchDog s now =
      { s with test := incByte s.test
               pin_raspi_relay := true
               power_minimum_off_time := now
               raspberry_power := false
               watchdog_state := WATCHDOG_STATE_IDLE
               watchdog_next_run :=
                 addUL s.watchdog_next_run (mulUI s.watchdog_run_interval 1000) } := by
  have hge : subUL (millis now) s.watchdog_turnoff_time
      ≥ mulUI s.watchdog_turnoff_interval 1000 := by
    rw [subUL_millis]
    exact h
  have hne : ¬ s.watchdog_state = WATCHDOG_STATE_WATCHING := by
    rw [hst]
    decide
  have hc : watchDogCheck s now =
      { s with test := incByte s.test
               pin_raspi_relay := true
               power_minimum_off_time := now
               raspberry_power := false
               watchdog_state := WATCHDOG_STATE_IDLE } := by
    unfold watchDogCheck shutDownHandler
    rw [if_neg hne, if_pos hst, if_pos hge, millis_of_lt hnow]
  rw [watchDog_eq, if_pos hd, hc]

theorem watchDogPolls_append (s : vOP) (ts us : List Nat) :
    watchDogPolls s (ts ++ us) = watchDogPolls (watchDogPolls s ts) us := by
  unfold watchDogPolls
  rw [List.foldl_append]

theorem watchDogPolls_cons (s : vOP) (t : Nat) (ts : List Nat) :
    watchDogPolls s (t :: ts) = watchDogPolls (watchDog s t) ts := rfl

/-- The fields that `sameButNextRun` keeps and the watchdog reads or the power
sequencer owns. -/
theorem sameButNextRun_fields {s s1 : vOP} (h : sameButNextRun s s1) :
    s1.watchdog_state = s.watchdog_state ∧
    s1.watchdog_last_pat = s.watchdog_last_pat ∧
    s1.watchdog_timeout_interval = s.watchdog_timeout_interval ∧
    s1.watchdog_turnoff_interval = s.watchdog_turnoff_interval ∧
    s1.watchdog_turnoff_time = s.watchdog_turnoff_time ∧
    s1.raspberry_power = s.raspberry_power ∧
    s1.power_minimum_off_time = s.power_minimum_off_time ∧
    s1.pin_raspi_relay = s.pin_raspi_relay := by
  unfold sameButNextRun at h
  rw [h]
  exact ⟨rfl, rfl, rfl, rfl, rfl, rfl, rfl, rfl⟩

/-- A run of `watchDog` calls changes at most `watchdog_next_run` when every
call of the run that is due satisfies a condition `C` on its clock value under
which the switch does nothing. -/
theorem watchDogPolls_quiet (C : Nat → Prop) (ts : List Nat) :
    ∀ s : vOP,
      (∀ (s1 : vOP) (t : Nat), sameButNextRun s s1 → C t → watchDogCheck s1 t = s1) →
      (∀ (i t : Nat), ts.get? i = some t →
        watchDogDue (watchDogPolls s (ts.take i)) t = true → C t) →
      sameButNextRun s (watchDogPolls s ts) := by
  induction ts with
  | nil => intro s _ _; exact sameButNextRun_refl s
  | cons t ts ih =>
    intro s hC h
    have h0 : sameButNextRun s (watchDog s t) :=
      watchDog_quiet s t (fun hd => hC s t (sameButNextRun_refl s) (h 0 t rfl hd))
    have hrest : sameButNextRun (watchDog s t) (watchDogPolls (watchDog s t) ts) := by
      apply ih
      · intro s1 u hs1 hu
        exact hC s1 u (sameButNextRun_trans h0 hs1) hu
      · intro i u hget hdue
        exact h (i + 1) u hget hdue
    exact sameButNextRun_trans h0 hrest

/-- C8. Pat: with a complete frame, stored opcode 15 and no pending error, a
fill event at time `t` writes `[0, 15, 0, 0]` and changes the state only in the
two fields `watchdog_state = WATCHDOG_STATE_WATCHING` and
`watchdog_last_pat = t`, whatever the phase was, so power and ignition state are
as before. A watchdog call at any time `now` with
`(now - t) mod 2^32 < watchdog_timeout_interval*1000` (the value of that
`unsigned int` product) then leaves the phase `WATCHDOG_STATE_WATCHING` and does
not touch the power state. -/
theorem pat_watchdog (s : vOP) (t : Nat) (ht : t < 2 ^ 32) (hc : s.command_complete = 1)
    (herr : s.error_flag = 0) (hcmd : s.command = 15) :
    (fillRequest s t).2 = [0, 15, 0, 0] ∧
    (fillRequest s t).1 =
      { s with watchdog_last_pat := t, watchdog_state := WATCHDOG_STATE_WATCHING } ∧
    (∀ now : Nat, subUL now t < mulUI s.watchdog_timeout_interval 1000 →
      (watchDog (fillRequest s t).1 now).watchdog_state = WATCHDOG_STATE_WATCHING ∧
      (watchDog (fillRequest s t).1 now).raspberry_power = s.raspberry_power ∧
      (watchDog (fillRequest s t).1 now).power_minimum_off_time = s.power_minimum_off_time ∧
      (watchDog (fillRequest s t).1 now).pin_raspi_relay = s.pin_raspi_relay) := by
  have hfill : fillRequest s t =
      ({ s with watchdog_last_pat := t, watchdog_state := WATCHDOG_STATE_WATCHING },
       [0, 15, 0, 0]) := by
    cases s
    simp_all [fillRequest, dispatchCommand, resetWatchDog, millis_of_lt ht,
      CMD_GET_IGNITION_STATE, CMD_GET_LAST_IGNITION_CHANGE_SECONDS,
      CMD_GET_LAST_IGNITION_CHANGE_MINUTES, CMD_ECHO, CMD_PAT_WATCHDOG]
  refine ⟨by rw [hfill], by rw [hfill], ?_⟩
  intro now hlt
  rw [hfill]
  have hnot : ¬ subUL (millis now) t ≥ mulUI s.watchdog_timeout_interval 1000 := by
    rw [subUL_millis]
    omega
  unfold watchDog
  split_ifs <;> simp [watchDogCheck, hnot]

theorem pat_watchdog_witness :
    (watchDog (fillRequest (receiveData (receiveData (construct 0 0) [15, 0, 0]) [10]) 0).1
        20000).watchdog_state = WATCHDOG_STATE_SHUTDOWN ∧
    (25000 : Nat) < 2 ^ 32 ∧
    (fillRequest
      (watchDog (fillRequest (receiveData (receiveData (construct 0 0) [15, 0, 0]) [10]) 0).1
        20000) 25000).2 = [0, 15, 0, 0] ∧
    (watchDog (fillRequest
      (watchDog (fillRequest (receiveData (receiveData (construct 0 0) [15, 0, 0]) [10]) 0).1
        20000) 25000).1 44999).watchdog_state = WATCHDOG_STATE_WATCHING :=
  ⟨by decide, by decide,
   (pat_watchdog
      (watchDog (fillRequest (receiveData (receiveData (construct 0 0) [15, 0, 0]) [10]) 0).1
        20000) 25000 (by decide) (by decide) (by decide) (by decide)).1,
   ((pat_watchdog
      (watchDog (fillRequest (receiveData (receiveData (construct 0 0) [15, 0, 0]) [10]) 0).1
        20000) 25000 (by decide) (by decide) (by decide) (by decide)).2.2 44999
      (by decide)).1⟩

/-- C9. Watchdog timeout chain with the default configuration (timeout 20 s,
turn-off 30 s). At a due watchdog call at time `now`: in the watching phase the
phase becomes shutdown-pending with `watchdog_turnoff_time = now` if and only if
`(now - watchdog_last_pat) mod 2^32 >= 20000`, and otherwise stays watching; in
the shutdown-pending phase the phase becomes idle and the shutdown action runs
(`raspberry_power = false`, `power_minimum_off_time = now`) if and only if
`(now - watchdog_turnoff_time) mod 2^32 >= 30000`, and otherwise phase and power
are unchanged. Hence, over a run of watchdog calls `ts1, t1, ts2, t2` with no
pat in between, where `t1` is the first due call with the timeout elapsed and
`t2` the first due call after it with the turn-off interval elapsed since `t1`:
the phase is watching until `t1`, shutdown-pending from `t1` (entered at `t1`,
power untouched) until `t2`, and idle with the device powered off at `t2`. -/
theorem watchdog_timeout_chain (s : vOP) (hto : s.watchdog_timeout_interval = 20)
    (htf : s.watchdog_turnoff_interval = 30) :
    (∀ now : Nat, now < 2 ^ 32 → watchDogDue s now = true →
      s.watchdog_state = WATCHDOG_STATE_WATCHING →
      (((watchDog s now).watchdog_state = WATCHDOG_STATE_SHUTDOWN ∧
        (watchDog s now).watchdog_turnoff_time = now) ↔
          subUL now s.watchdog_last_pat ≥ 20000) ∧
      (subUL now s.watchdog_last_pat < 20000 →
        (watchDog s now).watchdog_state = WATCHDOG_STATE_WATCHING)) ∧
    (∀ now : Nat, now < 2 ^ 32 → watchDogDue s now = true →
      s.watchdog_state = WATCHDOG_STATE_SHUTDOWN →
      (((watchDog s now).watchdog_state = WATCHDOG_STATE_IDLE ∧
        (watchDog s now).raspberry_power = false ∧
        (watchDog s now).power_minimum_off_time = now) ↔
          subUL now s.watchdog_turnoff_time ≥ 30000) ∧
      (subUL now s.watchdog_turnoff_time < 30000 →
        (watchDog s now).watchdog_state = WATCHDOG_STATE_SHUTDOWN ∧
        (watchDog s now).raspberry_power = s.raspberry_power ∧
        (watchDog s now).power_minimum_off_time = s.power_minimum_off_time ∧
        (watchDog s now).pin_raspi_relay = s.pin_raspi_relay)) ∧
    (∀ (ts1 ts2 : List Nat) (t1 t2 : Nat), t1 < 2 ^ 32 → t2 < 2 ^ 32 →
      s.watchdog_state = WATCHDOG_STATE_WATCHING →
      (∀ (i t : Nat), ts1.get? i = some t →
        watchDogDue (watchDogPolls s (ts1.take i)) t = true →
        subUL t s.watchdog_last_pat < 20000) →
      watchDogDue (watchDogPolls s ts1) t1 = true →
      subUL t1 s.watchdog_last_pat ≥ 20000 →
      (∀ (i t : Nat), ts2.get? i = some t →
        watchDogDue (watchDogPolls s (ts1 ++ t1 :: ts2.take i)) t = true →
        subUL t t1 < 30000) →
      watchDogDue (watchDogPolls s (ts1 ++ t1 :: ts2)) t2 = true →
      subUL t2 t1 ≥ 30000 →
      (watchDogPolls s ts1).watchdog_state = WATCHDOG_STATE_WATCHING ∧
      (watchDogPolls s (ts1 ++ [t1])).watchdog_state = WATCHDOG_STATE_SHUTDOWN ∧
      (watchDogPolls s (ts1 ++ [t1])).watchdog_turnoff_time = t1 ∧
      (watchDogPolls s (ts1 ++ t1 :: ts2)).watchdog_state = WATCHDOG_STATE_SHUTDOWN ∧
      (watchDogPolls s (ts1 ++ t1 :: ts2)).raspberry_power = s.raspberry_power ∧
      (watchDogPolls s (ts1 ++ t1 :: ts2 ++ [t2])).watchdog_state = WATCHDOG_STATE_IDLE ∧
      (watchDogPolls s (ts1 ++ t1 :: ts2 ++ [t2])).raspberry_power = false ∧
      (watchDogPolls s (ts1 ++ t1 :: ts2 ++ [t2])).power_minimum_off_time = t2) := by
  have hm20 : mulUI 20 1000 = 20000 := by decide
  have hm30 : mulUI 30 1000 = 30000 := by decide
  refine ⟨?_, ?_, ?_⟩
  · intro now hnow hd hst
    have hstay : subUL now s.watchdog_last_pat < 20000 →
        (watchDog s now).watchdog_state = WATCHDOG_STATE_WATCHING := by
      intro hlt
      have hq := watchDog_quiet s now
        (fun _ => watchDogCheck_watching s now hst (by rw [hto, hm20]; exact hlt))
      rw [(sameButNextRun_fields hq).1, hst]
    refine ⟨⟨?_, ?_⟩, hstay⟩
    · intro hsd
      by_contra hlt
      have := hstay (by omega)
      rw [this] at hsd
      exact absurd hsd.1 (by decide)
    · intro hge
      rw [watchDog_watching_fire s now hnow hd hst (by rw [hto, hm20]; exact hge)]
      exact ⟨rfl, rfl⟩
  · intro now hnow hd hst
    have hstay : subUL now s.watchdog_turnoff_time < 30000 →
        (watchDog s now).watchdog_state = WATCHDOG_STATE_SHUTDOWN ∧
        (watchDog s now).raspberry_power = s.raspberry_power ∧
        (watchDog s now).power_minimum_off_time = s.power_minimum_off_time ∧
        (watchDog s now).pin_raspi_relay = s.pin_raspi_relay := by
      intro hlt
      have hq := watchDog_quiet s now
        (fun _ => watchDogCheck_shutdown s now hst (by rw [htf, hm30]; exact hlt))
      obtain ⟨f1, _, _, _, _, f6, f7, f8⟩ := sameButNextRun_fields hq
      exact ⟨by rw [f1, hst], f6, f7, f8⟩
    refine ⟨⟨?_, ?_⟩, hstay⟩
    · intro hidle
      by_contra hlt
      have := (hstay (by omega)).1
      rw [this] at hidle
      exact absurd hidle.1 (by decide)
    · intro hge
      rw [watchDog_shutdown_fire s now hnow hd hst (by rw [htf, hm30]; exact hge)]
      exact ⟨rfl, rfl, rfl⟩
  · intro ts1 ts2 t1 t2 ht1 ht2 hst h1 hd1 hge1 h2 hd2 hge2
    -- the calls before `t1`
    have hA : sameButNextRun s (watchDogPolls s ts1) := by
      apply watchDogPolls_quiet (fun t => subUL t s.watchdog_last_pat < 20000) ts1 s _ h1
      intro s1 t hs1 hlt
      obtain ⟨f1, f2, f3, _⟩ := sameButNextRun_fields hs1
      exact watchDogCheck_watching s1 t (by rw [f1, hst]) (by rw [f2, f3, hto, hm20]; exact hlt)
    obtain ⟨a1, a2, a3, a4, _, a6, _, _⟩ := sameButNextRun_fields hA
    -- the call at `t1`
    have hB := watchDog_watching_fire (watchDogPolls s ts1) t1 ht1 hd1 (by rw [a1, hst])
      (by rw [a2, a3, hto, hm20]; exact hge1)
    have hB1 : watchDogPolls s (ts1 ++ [t1]) = watchDog (watchDogPolls s ts1) t1 := by
      rw [watchDogPolls_append]
      rfl
    have hBst : (watchDog (watchDogPolls s ts1) t1).watchdog_state
        = WATCHDOG_STATE_SHUTDOWN := by rw [hB]
    have hBtt : (watchDog (watchDogPolls s ts1) t1).watchdog_turnoff_time = t1 := by rw [hB]
    have hBti : (watchDog (watchDogPolls s ts1) t1).watchdog_turnoff_interval = 30 := by
      rw [hB]
      exact a4.trans htf
    have hBpw : (watchDog (watchDogPolls s ts1) t1).raspberry_power = s.raspberry_power := by
      rw [hB]
      exact a6
    -- the calls between `t1` and `t2`
    have hsplit : ∀ l : List Nat, watchDogPolls s (ts1 ++ t1 :: l)
        = watchDogPolls (watchDog (watchDogPolls s ts1) t1) l := by
      intro l
      rw [watchDogPolls_append, watchDogPolls_cons]
    have hC : sameButNextRun (watchDog (watchDogPolls s ts1) t1)
        (watchDogPolls (watchDog (watchDogPolls s ts1) t1) ts2) := by
      apply watchDogPolls_quiet (fun t => subUL t t1 < 30000) ts2 _ _
        (fun i t hget hdue => h2 i t hget (by rw [hsplit]; exact hdue))
      intro s1 t hs1 hlt
      obtain ⟨f1, _, _, f4, f5, _⟩ := sameButNextRun_fields hs1
      exact watchDogCheck_shutdown s1 t (by rw [f1, hBst])
        (by rw [f4, f5, hBti, hBtt, hm30]; exact hlt)
    obtain ⟨c1, _, _, c4, c5, c6, _, _⟩ := sameButNextRun_fields hC
    -- the call at `t2`
    have hD := watchDog_shutdown_fire (watchDogPolls (watchDog (watchDogPolls s ts1) t1) ts2) t2
      ht2 (by rw [← hsplit]; exact hd2) (by rw [c1, hBst])
      (by rw [c4, c5, hBti, hBtt, hm30]; exact hge2)
    have hD1 : watchDogPolls s (ts1 ++ t1 :: ts2 ++ [t2])
        = watchDog (watchDogPolls (watchDog (watchDogPolls s ts1) t1) ts2) t2 := by
      rw [show ts1 ++ t1 :: ts2 ++ [t2] = ts1 ++ t1 :: (ts2 ++ [t2]) by simp, hsplit,
        watchDogPolls_append]
      rfl
    refine ⟨by rw [a1, hst], by rw [hB1, hBst], by rw [hB1, hBtt], by rw [hsplit, c1, hBst],
      by rw [hsplit, c6, hBpw], ?_, ?_, ?_⟩
    · rw [hD1, hD]
    · rw [hD1, hD]
    · rw [hD1, hD]

theorem watchdog_timeout_chain_witness :
    (firstPatExample.watchdog_timeout_interval = 20 ∧
     firstPatExample.watchdog_turnoff_interval = 30 ∧
     firstPatExample.watchdog_state = WATCHDOG_STATE_WATCHING ∧
     firstPatExample.watchdog_last_pat = 6000 ∧
     firstPatExample.raspberry_power = true) ∧
    (watchDogPolls firstPatExample [25000]).watchdog_state = WATCHDOG_STATE_WATCHING ∧
    (watchDogPolls firstPatExample ([25000] ++ [30000])).watchdog_state
      = WATCHDOG_STATE_SHUTDOWN ∧
    (watchDogPolls firstPatExample ([25000] ++ [30000])).watchdog_turnoff_time = 30000 ∧
    (watchDogPolls firstPatExample ([25000] ++ 30000 :: [59999])).watchdog_state
      = WATCHDOG_STATE_SHUTDOWN ∧
    (watchDogPolls firstPatExample ([25000] ++ 30000 :: [59999])).raspberry_power
      = firstPatExample.raspberry_power ∧
    (watchDogPolls firstPatExample ([25000] ++ 30000 :: [59999] ++ [60000])).watchdog_state
      = WATCHDOG_STATE_IDLE ∧
    (watchDogPolls firstPatExample ([25000] ++ 30000 :: [59999] ++ [60000])).raspberry_power
      = false ∧
    (watchDogPolls firstPatExample
      ([25000] ++ 30000 :: [59999] ++ [60000])).power_minimum_off_time = 60000 :=
  ⟨by decide,
   (watchdog_timeout_chain firstPatExample (by decide) (by decide)).2.2
     [25000] [59999] 30000 60000 (by decide) (by decide) (by decide)
     (fun i t hget _ => by
       cases i with
       | zero =>
         simp only [List.get?, Option.some.injEq] at hget
         subst hget
         decide
       | succ j => simp [List.get?] at hget)
     (by decide) (by decide)
     (fun i t hget _ => by
       cases i with
       | zero =>
         simp only [List.get?, Option.some.injEq] at hget
         subst hget
         decide
       | succ j => simp [List.get?] at hget)
     (by decide) (by decide)⟩

/-- C10. Minimum off time with the default `power_minimum_off_interval = 5`:
after the shutdown action at time `T`, a boot action at any time `now` with
`(now - T) mod 2^32 < 5000` changes nothing and leaves the device unpowered,
also with the ignition latched on; with the ignition latched on, the boot action
at `now = (T + 5000) mod 2^32` sets `raspberry_power`, the phase
`WATCHDOG_STATE_BOOTING` and the boot timer `now`. -/
theorem minimum_off_time (s : vOP) (T : Nat) (hcfg : s.power_minimum_off_interval = 5) :
    (∀ now : Nat, subUL now T < 5000 →
      bootUpHandler (shutDownHandler s T) now = shutDownHandler s T ∧
      (bootUpHandler (shutDownHandler s T) now).raspberry_power = false) ∧
    (s.ignition_state = true →
      (bootUpHandler (shutDownHandler s T) ((T + 5000) % 2 ^ 32)).raspberry_power = true ∧
      (bootUpHandler (shutDownHandler s T) ((T + 5000) % 2 ^ 32)).watchdog_state
        = WATCHDOG_STATE_BOOTING ∧
      (bootUpHandler (shutDownHandler s T) ((T + 5000) % 2 ^ 32)).watchdog_boot_time
        = (T + 5000) % 2 ^ 32) := by
  have hmul : mulUI 5 1000 = 5000 := by decide
  constructor
  · intro now hlt
    have hnot : ¬ subUL (millis now) (millis T) ≥ 5000 := by
      unfold subUL millis at *
      omega
    simp [bootUpHandler, shutDownHandler, hcfg, hmul, hnot]
  · intro hign
    have hge : subUL ((T + 5000) % 2 ^ 32) (millis T) ≥ 5000 := by
      unfold subUL millis
      omega
    have hm : millis ((T + 5000) % 2 ^ 32) = (T + 5000) % 2 ^ 32 := by
      unfold millis
      omega
    simp only [bootUpHandler, shutDownHandler, hcfg, hmul, hign, hge, hm, Bool.not_false,
      if_true, and_self]

theorem minimum_off_time_witness :
    (construct 0 0).power_minimum_off_interval = 5 ∧
    bootUpHandler (shutDownHandler { construct 0 0 with ignition_state := true } 4294966296)
        3999 = shutDownHandler { construct 0 0 with ignition_state := true } 4294966296 ∧
    (bootUpHandler (shutDownHandler { construct 0 0 with ignition_state := true } 4294966296)
        ((4294966296 + 5000) % 2 ^ 32)).watchdog_boot_time = 4000 :=
  ⟨by decide,
   ((minimum_off_time { construct 0 0 with ignition_state := true } 4294966296 (by decide)).1
      3999 (by decide)).1,
   ((minimum_off_time { construct 0 0 with ignition_state := true } 4294966296 (by decide)).2
      (by decide)).2.2⟩

/-! ## Debounce filter -/

/-- A call of `debounceIgnition` whose sample equals the latched state changes
neither the latch nor `ignition_delta_time`. -/
theorem debounceIgnition_same (s : vOP) (t : Nat) (v : Bool) (h : s.ignition_state = v) :
    (debounceIgnition s t v).ignition_state = v ∧
    (debounceIgnition s t v).ignition_delta_time = s.ignition_delta_time := by
  unfold debounceIgnition
  by_cases hg : subUL (millis t) s.debounce_next_ignition_time ≥ CHECK_IGNITION_INTERVAL
  · by_cases hlast : boolToNat v = s.debounce_last_ignition_state
    · by_cases hcnt : incByte s.debounce_counter_ignition ≥ CHECK_IGNITION_RETRIES
      · simp [hg, hlast, hcnt, h]
      · simp [hg, hlast, hcnt, h]
    · simp [hg, hlast, h]
  · simp [hg, h]

/-- A run of calls whose samples all equal the latched state changes neither the
latch nor `ignition_delta_time`. -/
theorem debounceRun_same (v : Bool) (ts : List Nat) :
    ∀ s : vOP, s.ignition_state = v →
      (debounceRun s v ts).ignition_state = v ∧
      (debounceRun s v ts).ignition_delta_time = s.ignition_delta_time := by
  induction ts with
  | nil => intro s h; exact ⟨h, rfl⟩
  | cons t ts ih =>
    intro s h
    obtain ⟨h1, h2⟩ := debounceIgnition_same s t v h
    obtain ⟨h3, h4⟩ := ih (debounceIgnition s t v) h1
    exact ⟨h3, h4.trans h2⟩

theorem debounceRun_cons (s : vOP) (v : Bool) (t : Nat) (ts : List Nat) :
    debounceRun s v (t :: ts) = debounceRun (debounceIgnition s t v) v ts := rfl

/-- One sample equal to `v`, taken while the latch differs from `v`: it flips the
latch and stamps `ignition_delta_time` when `samplesToLatch` is 1, and otherwise
changes neither and lowers `samplesToLatch` by one. -/
theorem debounceIgnition_step (s : vOP) (t : Nat) (v : Bool) (hL : s.ignition_state ≠ v)
    (hd : debounceDue s t = true) :
    (samplesToLatch s v = 1 →
      (debounceIgnition s t v).ignition_state = v ∧
      (debounceIgnition s t v).ignition_delta_time = millis t) ∧
    (samplesToLatch s v ≠ 1 →
      (debounceIgnition s t v).ignition_state = s.ignition_state ∧
      (debounceIgnition s t v).ignition_delta_time = s.ignition_delta_time ∧
      samplesToLatch (debounceIgnition s t v) v + 1 = samplesToLatch s v) := by
  have hg : subUL (millis t) s.debounce_next_ignition_time ≥ CHECK_IGNITION_INTERVAL := by
    simpa [debounceDue] using hd
  unfold debounceIgnition
  rw [if_pos hg]
  by_cases hlast : boolToNat v = s.debounce_last_ignition_state
  · by_cases hcnt : incByte s.debounce_counter_ignition ≥ CHECK_IGNITION_RETRIES
    · simp [samplesToLatch, hlast, hcnt, hL]
    · have h3 : incByte s.debounce_counter_ignition < 3 := by
        simpa [CHECK_IGNITION_RETRIES] using hcnt
      have hne : 4 - incByte s.debounce_counter_ignition ≠ 1 := by omega
      simp only [samplesToLatch, hlast, hcnt, if_true, if_false, hne]
      refine ⟨fun h => absurd h (by simp), fun _ => ⟨trivial, trivial, ?_⟩⟩
      simp only [incByte, CHECK_IGNITION_RETRIES] at h3 ⊢
      split_ifs <;> omega
  · simp [samplesToLatch, hlast, incByte, CHECK_IGNITION_RETRIES]

theorem samplesToLatch_pos (s : vOP) (v : Bool) : 1 ≤ samplesToLatch s v := by
  unfold samplesToLatch
  simp only [CHECK_IGNITION_RETRIES]
  split_ifs <;> omega

/-- A run of samples all equal to `v`, each of them taken, from a state whose
latch differs from `v`: the latch and `ignition_delta_time` are untouched before
the sample number `samplesToLatch`, and from that sample on the latch is `v` and
`ignition_delta_time` holds the clock value read by the call that took it. -/
theorem debounceRun_latch (v : Bool) (ts : List Nat) :
    ∀ s : vOP, s.ignition_state ≠ v →
      (∀ (i t : Nat), ts.get? i = some t →
        debounceDue (debounceRun s v (ts.take i)) t = true) →
      ∀ j : Nat, j ≤ ts.length →
        (j < samplesToLatch s v →
          (debounceRun s v (ts.take j)).ignition_state = s.ignition_state ∧
          (debounceRun s v (ts.take j)).ignition_delta_time = s.ignition_delta_time) ∧
        (samplesToLatch s v ≤ j →
          (debounceRun s v (ts.take j)).ignition_state = v ∧
          ∃ t : Nat, ts.get? (samplesToLatch s v - 1) = some t ∧
            (debounceRun s v (ts.take j)).ignition_delta_time = millis t) := by
  induction ts with
  | nil =>
    intro s _ _ j hj
    have hpos := samplesToLatch_pos s v
    have hj0 : j = 0 := by simpa using hj
    subst hj0
    exact ⟨fun _ => ⟨rfl, rfl⟩, fun h => absurd h (by omega)⟩
  | cons t ts ih =>
    intro s hL hdue j hj
    have hpos := samplesToLatch_pos s v
    cases j with
    | zero => exact ⟨fun _ => ⟨rfl, rfl⟩, fun h => absurd h (by omega)⟩
    | succ j =>
      have hj1 : j ≤ ts.length := by simpa using hj
      have hd0 : debounceDue s t = true := hdue 0 t rfl
      obtain ⟨hflip, hkeep⟩ := debounceIgnition_step s t v hL hd0
      rw [List.take_succ_cons, debounceRun_cons]
      by_cases hk : samplesToLatch s v = 1
      · obtain ⟨f1, f2⟩ := hflip hk
        obtain ⟨g1, g2⟩ := debounceRun_same v (ts.take j) (debounceIgnition s t v) f1
        refine ⟨fun h => absurd h (by omega), fun _ => ⟨g1, t, ?_, g2.trans f2⟩⟩
        rw [hk]
        rfl
      · obtain ⟨f1, f2, f3⟩ := hkeep hk
        have hL1 : (debounceIgnition s t v).ignition_state ≠ v := by
          rw [f1]
          exact hL
        have hdue1 : ∀ (i u : Nat), ts.get? i = some u →
            debounceDue (debounceRun (debounceIgnition s t v) v (ts.take i)) u = true := by
          intro i u hget
          have := hdue (i + 1) u hget
          rw [List.take_succ_cons, debounceRun_cons] at this
          exact this
        obtain ⟨h1, h2⟩ := ih (debounceIgnition s t v) hL1 hdue1 j hj1
        have hpos1 := samplesToLatch_pos (debounceIgnition s t v) v
        constructor
        · intro hlt
          obtain ⟨a, b⟩ := h1 (by omega)
          exact ⟨a.trans f1, b.trans f2⟩
        · intro hle
          obtain ⟨a, u, hu, b⟩ := h2 (by omega)
          refine ⟨a, u, ?_, b⟩
          have hidx : samplesToLatch s v - 1
              = (samplesToLatch (debounceIgnition s t v) v - 1) + 1 := by omega
          rw [hidx]
          exact hu

/-- C11, as stated, fails: from the constructor's state (latch off, previous
sample off) three consecutive samples "on", each of them taken, do not flip the
latch; the first of them only resets the counter. -/
theorem debounce_third_sample_counterexample :
    ¬ (debounceDue (construct 0 0) 50 = true →
       debounceDue (debounceRun (construct 0 0) true [50]) 100 = true →
       debounceDue (debounceRun (construct 0 0) true [50, 100]) 150 = true →
       (debounceRun (construct 0 0) true [50, 100, 150]).ignition_state = true) := by
  decide

/-- C11, amended. The filter counts samples that agree with the previous sample
and latches when that count reaches 3. From a state whose latch differs from
`v`, over a run of samples all equal to `v`, each of them taken, the latch flips
to `v` exactly once, at the sample number `samplesToLatch s v`, which is 4 when
the previous sample differs from `v` and `3 - debounce_counter_ignition` when
the previous sample is `v` (so 3 when the counter is 0): before that sample
latch and `ignition_delta_time` are as in `s`, and from it on, whatever the
number of further samples, the latch is `v` and `ignition_delta_time` is the
clock value of the call that took that sample. -/
theorem debounce_latching (s : vOP) (v : Bool) (ts : List Nat) (hL : s.ignition_state ≠ v)
    (hts : ∀ t ∈ ts, t < 2 ^ 32)
    (hdue : ∀ (i t : Nat), ts.get? i = some t →
      debounceDue (debounceRun s v (ts.take i)) t = true) :
    (boolToNat v ≠ s.debounce_last_ignition_state → samplesToLatch s v = 4) ∧
    (boolToNat v = s.debounce_last_ignition_state → s.debounce_counter_ignition < 3 →
      samplesToLatch s v = 3 - s.debounce_counter_ignition) ∧
    (∀ j : Nat, j ≤ ts.length →
      (j < samplesToLatch s v →
        (debounceRun s v (ts.take j)).ignition_state = s.ignition_state ∧
        (debounceRun s v (ts.take j)).ignition_delta_time = s.ignition_delta_time) ∧
      (samplesToLatch s v ≤ j →
        (debounceRun s v (ts.take j)).ignition_state = v ∧
        ∃ t : Nat, ts.get? (samplesToLatch s v - 1) = some t ∧
          (debounceRun s v (ts.take j)).ignition_delta_time = t)) := by
  refine ⟨?_, ?_, ?_⟩
  · intro h
    simp [samplesToLatch, h]
  · intro h hc
    simp only [samplesToLatch, h, if_true, incByte, CHECK_IGNITION_RETRIES]
    split_ifs <;> omega
  · intro j hj
    obtain ⟨h1, h2⟩ := debounceRun_latch v ts s hL hdue j hj
    refine ⟨h1, fun hle => ?_⟩
    obtain ⟨a, t, ht, b⟩ := h2 hle
    refine ⟨a, t, ht, ?_⟩
    rw [b]
    exact millis_of_lt (hts t (List.get?_mem ht))

theorem debounce_latching_witness :
    ((construct 0 0).ignition_state ≠ true ∧ samplesToLatch (construct 0 0) true = 4) ∧
    (debounceRun (construct 0 0) true ([50, 100, 150, 200, 250].take 3)).ignition_state
      = (construct 0 0).ignition_state ∧
    (debounceRun (construct 0 0) true ([50, 100, 150, 200, 250].take 5)).ignition_state
      = true ∧
    (∃ t : Nat, [50, 100, 150, 200, 250].get? (samplesToLatch (construct 0 0) true - 1)
        = some t ∧
      (debounceRun (construct 0 0) true ([50, 100, 150, 200, 250].take 5)).ignition_delta_time
        = t) :=
  have h := (debounce_latching (construct 0 0) true [50, 100, 150, 200, 250] (by decide)
    (by decide)
    (fun i t hget => by
      rcases i with _ | _ | _ | _ | _ | i <;> simp [List.get?] at hget <;> subst hget <;>
        decide)).2.2
  ⟨by decide, ((h 3 (by decide)).1 (by decide)).1, ((h 5 (by decide)).2 (by decide)).1,
   ((h 5 (by decide)).2 (by decide)).2⟩

/-- C12, the failing input. With the ignition latched on since time 0, the
command `[101, 2, 0]`, the terminator and a fill event at 9000 ms leave the
latch on and restamp `ignition_delta_time` with 9000: the guard
`ignition_state != param_buffer[0]` compares the `bool` latch with the raw
byte. -/
theorem force_ignition_restamps :
    (receiveData (receiveData firstPatExample [101, 2, 0]) [10]).ignition_state = true ∧
    (receiveData (receiveData firstPatExample [101, 2, 0]) [10]).ignition_delta_time = 0 ∧
    (fillRequest (receiveData (receiveData firstPatExample [101, 2, 0]) [10])
      9000).1.ignition_state = true ∧
    (fillRequest (receiveData (receiveData firstPatExample [101, 2, 0]) [10])
      9000).1.ignition_delta_time = 9000 := by
  decide

/-- The time of the next sample after a sample has been taken. -/
theorem debounceIgnition_next (s : vOP) (t : Nat) (v : Bool) (hd : debounceDue s t = true) :
    (debounceIgnition s t v).debounce_next_ignition_time
      = addUL s.debounce_next_ignition_time CHECK_IGNITION_INTERVAL := by
  have hg : subUL (millis t) s.debounce_next_ignition_time ≥ CHECK_IGNITION_INTERVAL := by
    simpa [debounceDue] using hd
  unfold debounceIgnition
  by_cases hlast : boolToNat v = s.debounce_last_ignition_state
  · by_cases hcnt : incByte s.debounce_counter_ignition ≥ CHECK_IGNITION_RETRIES
    · by_cases hL : s.ignition_state = v
      · simp [hg, hlast, hcnt, hL]
      · simp [hg, hlast, hcnt, hL]
    · simp [hg, hlast, hcnt]
  · simp [hg, hlast]

/-- A call of `debounceIgnition` that is not due changes nothing. -/
theorem debounceIgnition_not_due (s : vOP) (t : Nat) (v : Bool)
    (hd : debounceDue s t = false) : debounceIgnition s t v = s := by
  have hg : ¬ subUL (millis t) s.debounce_next_ignition_time ≥ CHECK_IGNITION_INTERVAL := by
    simpa [debounceDue] using hd
  unfold debounceIgnition
  rw [if_neg hg]

/-- C13, as stated, fails: `debounce_next_ignition_time` advances by 50 per
sample and is not reset to the clock, so a filter that is behind samples again
at once. From the constructor's state the call at 1000 ms takes a sample and so
does the call at 1001 ms. -/
theorem sampling_rate_counterexample :
    ¬ (debounceDue (construct 0 0) 1000 = true →
       debounceDue (debounceIgnition (construct 0 0) 1000 true) 1001 = false ∧
       debounceIgnition (debounceIgnition (construct 0 0) 1000 true) 1001 true
         = debounceIgnition (construct 0 0) 1000 true) := by
  decide

/-- C13, amended. For clock values `t1 <= t2` with `t2 - t1 < 50`, after a
debounce call at `t1` that takes a sample, the call at `t2` takes a sample if
and only if `(t1 - debounce_next_ignition_time) mod 2^32 + (t2 - t1) >= 100`,
that is, when the filter was a full interval behind its schedule; when it was
not, the call at `t2` leaves the whole state (accumulator, latch,
`ignition_delta_time`) unchanged. -/
theorem sampling_rate_limit (s : vOP) (t1 t2 : Nat) (v1 v2 : Bool) (h12 : t1 ≤ t2)
    (hlt : t2 - t1 < 50) (ht2 : t2 < 2 ^ 32) (hd : debounceDue s t1 = true) :
    (debounceDue (debounceIgnition s t1 v1) t2 = true ↔
      subUL t1 s.debounce_next_ignition_time + (t2 - t1) ≥ 100) ∧
    (subUL t1 s.debounce_next_ignition_time + (t2 - t1) < 100 →
      debounceIgnition (debounceIgnition s t1 v1) t2 v2 = debounceIgnition s t1 v1) := by
  have hnext := debounceIgnition_next s t1 v1 hd
  have hg : subUL (millis t1) s.debounce_next_ignition_time ≥ 50 := by
    simpa [debounceDue, CHECK_IGNITION_INTERVAL] using hd
  have hiff : debounceDue (debounceIgnition s t1 v1) t2 = true ↔
      subUL t1 s.debounce_next_ignition_time + (t2 - t1) ≥ 100 := by
    simp only [debounceDue, hnext, decide_eq_true_eq, CHECK_IGNITION_INTERVAL]
    unfold subUL addUL millis at *
    omega
  refine ⟨hiff, fun hlt100 => ?_⟩
  apply debounceIgnition_not_due
  cases hdd : debounceDue (debounceIgnition s t1 v1) t2
  · rfl
  · have := hiff.mp hdd
    omega

theorem sampling_rate_limit_witness :
    ((60 : Nat) ≤ 99 ∧ 99 - 60 < 50 ∧ (99 : Nat) < 2 ^ 32 ∧
     debounceDue (construct 0 0) 60 = true) ∧
    debounceIgnition (debounceIgnition (construct 0 0) 60 true) 99 true
      = debounceIgnition (construct 0 0) 60 true :=
  ⟨by decide,
   (sampling_rate_limit (construct 0 0) 60 99 true true (by decide) (by decide) (by decide)
      (by decide)).2 (by decide)⟩

/-- C14. Get ignition state: with a complete frame, stored opcode 11 and no
pending error, a fill event writes `[0, 11, 0, 1]` when the ignition is latched
on and `[0, 11, 0, 0]` when it is latched off, and leaves the whole state as it
was. -/
theorem fill_ignition_state (s : vOP) (now : Nat) (hc : s.command_complete = 1)
    (herr : s.error_flag = 0) (hcmd : s.command = 11) :
    (s.ignition_state = true → (fillRequest s now).2 = [0, 11, 0, 1]) ∧
    (s.ignition_state = false → (fillRequest s now).2 = [0, 11, 0, 0]) ∧
    (fillRequest s now).1 = s := by
  have hstate : (fillRequest s now).1 = s := by
    cases s
    simp_all [fillRequest, dispatchCommand, CMD_GET_IGNITION_STATE]
  refine ⟨fun h => ?_, fun h => ?_, hstate⟩
  · simp [fillRequest, dispatchCommand, CMD_GET_IGNITION_STATE, boolToNat, hc, herr, hcmd, h]
  · simp [fillRequest, dispatchCommand, CMD_GET_IGNITION_STATE, boolToNat, hc, herr, hcmd, h]

theorem fill_ignition_state_witness :
    ((receiveData (receiveData firstPatExample [11, 0, 0]) [10]).command_complete = 1 ∧
     (receiveData (receiveData firstPatExample [11, 0, 0]) [10]).error_flag = 0 ∧
     (receiveData (receiveData firstPatExample [11, 0, 0]) [10]).command = 11 ∧
     (receiveData (receiveData firstPatExample [11, 0, 0]) [10]).ignition_state = true) ∧
    (fillRequest (receiveData (receiveData firstPatExample [11, 0, 0]) [10]) 7000).2
      = [0, 11, 0, 1] :=
  ⟨by decide,
   (fill_ignition_state (receiveData (receiveData firstPatExample [11, 0, 0]) [10]) 7000
      (by decide) (by decide) (by decide)).1 (by decide)⟩

/-! ## Framing of delivery events -/

theorem sameButFrame_refl (s : vOP) : sameButFrame s s := by
  cases s
  rfl

theorem sameButFrame_trans {a b c : vOP} (h1 : sameButFrame a b) (h2 : sameButFrame b c) :
    sameButFrame a c := by
  unfold sameButFrame at *
  rw [h2, h1]

/-- One iteration of the receive loop assigns only frame fields. -/
theorem receiveByte_frame (s : vOP) (i b : Nat) : sameButFrame s (receiveByte s i b).1 := by
  unfold sameButFrame receiveByte setParam
  dsimp only
  by_cases h0 : i = 0
  · by_cases h10 : b % 256 = END_OF_COMMAND
    · simp [h0, h10]
    · simp [h0, h10]
  · by_cases h3 : i < MAX_COMMAND_PARAMETERS
    · by_cases h1 : i - 1 = 0
      · simp [h0, h3, h1]
      · by_cases h2 : i - 1 = 1
        · simp [h0, h3, h1, h2]
        · simp [h0, h3, h1, h2]
    · simp [h0, h3]

/-- The receive loop assigns only frame fields, whatever the bytes and the
start index. -/
theorem receiveLoop_frame (bs : List Nat) :
    ∀ (s : vOP) (i : Nat), sameButFrame s (receiveLoop s i bs) := by
  induction bs with
  | nil => intro s _; exact sameButFrame_refl s
  | cons b bs ih =>
    intro s i
    rw [receiveLoop]
    exact sameButFrame_trans (receiveByte_frame s i b) (ih _ _)

/-- The effect of a delivery event of 1 to 256 bytes, field by field. -/
theorem receiveData_cons (s : vOP) (b0 : Nat) (rest : List Nat) (hlen : rest.length ≤ 255) :
    receiveData s (b0 :: rest) =
      { s with
        command := if b0 % 256 ≠ END_OF_COMMAND then b0 % 256 else s.command
        param_buffer0 := ((rest.get? 0).map (fun b => b % 256)).getD s.param_buffer0
        param_buffer1 := ((rest.get? 1).map (fun b => b % 256)).getD s.param_buffer1
        command_complete := if rest = [] ∧ b0 % 256 = END_OF_COMMAND then 1 else 0
        error_flag := if 3 ≤ rest.length then ERR_BUFFER_OVERFLOW else s.error_flag } := by
  match rest, hlen with
  | [], _ =>
    by_cases h10 : b0 % 256 = END_OF_COMMAND
    · simp [receiveData, receiveLoop, receiveByte, h10]
    · simp [receiveData, receiveLoop, receiveByte, h10]
  | [b1], _ =>
    by_cases h10 : b0 % 256 = END_OF_COMMAND
    · simp [receiveData, receiveLoop, receiveByte, setParam, incByte, MAX_COMMAND_PARAMETERS,
        h10]
    · simp [receiveData, receiveLoop, receiveByte, setParam, incByte, MAX_COMMAND_PARAMETERS,
        h10]
  | [b1, b2], _ =>
    by_cases h10 : b0 % 256 = END_OF_COMMAND
    · simp [receiveData, receiveLoop, receiveByte, setParam, incByte, MAX_COMMAND_PARAMETERS,
        h10]
    · simp [receiveData, receiveLoop, receiveByte, setParam, incByte, MAX_COMMAND_PARAMETERS,
        h10]
  | b1 :: b2 :: b3 :: more, hlen =>
    have hstep : receiveData s (b0 :: b1 :: b2 :: b3 :: more) =
        receiveLoop
          (receiveByte (receiveByte (receiveByte (receiveByte s 0 b0).1 1 b1).1 2 b2).1 3 b3).1
          4 more := rfl
    have hmore : 4 + more.length ≤ 256 := by
      simp only [List.length_cons] at hlen
      omega
    rw [hstep, receiveLoop_overflow more _ 4 (by omega) hmore rfl rfl]
    by_cases h10 : b0 % 256 = END_OF_COMMAND
    · simp [receiveByte, setParam, MAX_COMMAND_PARAMETERS, h10]
    · simp [receiveByte, setParam, MAX_COMMAND_PARAMETERS, h10]

/-- C15, as stated, fails for the event that carries zero bytes: the loop body
never runs, `command_complete` keeps its value 1 from the constructor, and no
terminator was delivered. -/
theorem empty_event_counterexample :
    ¬ ((receiveData (construct 0 0) []).command_complete = 1 →
       ([] : List Nat).head? = some 10) := by
  decide

/-- C15, amended to delivery events of 1 to 256 bytes. After such an event the
frame is complete only if the event delivered the terminator 10 at its index 0,
and a fill event following an event that contained no terminator answers
`ERR_COMMAND_INCOMPLETE` (3). An event that carries zero bytes leaves the state,
and with it the complete flag, as it was. -/
theorem complete_after_event (s : vOP) (bytes : List Nat) (now : Nat) (hne : bytes ≠ [])
    (hlen : bytes.length ≤ 256) (hb : ∀ b ∈ bytes, b < 256) :
    ((receiveData s bytes).command_complete = 1 → bytes.head? = some 10) ∧
    (10 ∉ bytes → (fillRequest (receiveData s bytes) now).2.head? = some 3) ∧
    receiveData s [] = s := by
  cases bytes with
  | nil => exact absurd rfl hne
  | cons b0 rest =>
    have hrest : rest.length ≤ 255 := by
      simp only [List.length_cons] at hlen
      omega
    have hb0 : b0 % 256 = b0 := Nat.mod_eq_of_lt (hb b0 (List.mem_cons_self _ _))
    have hcc : (receiveData s (b0 :: rest)).command_complete
        = if rest = [] ∧ b0 = END_OF_COMMAND then 1 else 0 := by
      rw [receiveData_cons s b0 rest hrest, hb0]
    refine ⟨?_, ?_, rfl⟩
    · intro h1
      rw [hcc] at h1
      by_cases hcond : rest = [] ∧ b0 = END_OF_COMMAND
      · simp [hcond.2, END_OF_COMMAND]
      · rw [if_neg hcond] at h1
        exact absurd h1 (by decide)
    · intro hno
      have hcond : ¬ (rest = [] ∧ b0 = END_OF_COMMAND) := by
        intro hc
        apply hno
        rw [hc.2]
        exact List.mem_cons_self _ _
      have h0 : (receiveData s (b0 :: rest)).command_complete ≠ 1 := by
        rw [hcc, if_neg hcond]
        decide
      rw [fillRequest_head, if_neg h0]
      rfl

theorem complete_after_event_witness :
    (([14, 65, 66] : List Nat) ≠ [] ∧ ([14, 65, 66] : List Nat).length ≤ 256 ∧
     (∀ b ∈ ([14, 65, 66] : List Nat), b < 256) ∧ 10 ∉ ([14, 65, 66] : List Nat)) ∧
    (fillRequest (receiveData firstPatExample [14, 65, 66]) 7000).2.head? = some 3 :=
  ⟨by decide,
   (complete_after_event firstPatExample [14, 65, 66] 7000 (by decide) (by decide)
      (by decide)).2.1 (by decide)⟩

/-- C16. Exact framing rule: for a delivery event of 1 to 255 bytes the frame is
complete afterwards if and only if the event is the single byte `[10]`; the
stored opcode becomes byte 0 when that is not 10; parameter slot 0 becomes byte
1 when there are at least 2 bytes, slot 1 becomes byte 2 when there are at least
3; the pending error becomes `ERR_BUFFER_OVERFLOW` (1) when there are at least
4; each is otherwise unchanged. -/
theorem framing_rule (s : vOP) (bytes : List Nat) (h1 : 1 ≤ bytes.length)
    (h255 : bytes.length ≤ 255) (hb : ∀ b ∈ bytes, b < 256) :
    ((receiveData s bytes).command_complete = 1 ↔ bytes = [10]) ∧
    (receiveData s bytes).command
      = (if bytes.getD 0 0 ≠ 10 then bytes.getD 0 0 else s.command) ∧
    (receiveData s bytes).param_buffer0
      = (if 2 ≤ bytes.length then bytes.getD 1 0 else s.param_buffer0) ∧
    (receiveData s bytes).param_buffer1
      = (if 3 ≤ bytes.length then bytes.getD 2 0 else s.param_buffer1) ∧
    (receiveData s bytes).error_flag = (if 4 ≤ bytes.length then 1 else s.error_flag) := by
  cases bytes with
  | nil => simp at h1
  | cons b0 rest =>
    have hrest : rest.length ≤ 255 := by
      simp only [List.length_cons] at h255
      omega
    have hb0 : b0 % 256 = b0 := Nat.mod_eq_of_lt (hb b0 (List.mem_cons_self _ _))
    rw [receiveData_cons s b0 rest hrest, hb0]
    refine ⟨?_, ?_, ?_, ?_, ?_⟩
    · by_cases hcond : rest = [] ∧ b0 = END_OF_COMMAND
      · simp [hcond.1, hcond.2, END_OF_COMMAND]
      · have hne : ¬ (b0 = 10 ∧ rest = []) := fun h =>
          hcond ⟨h.2, h.1⟩
        simp [hcond, hne]
    · simp [END_OF_COMMAND]
    · cases rest with
      | nil => simp
      | cons b1 r1 =>
        have hb1 : b1 % 256 = b1 :=
          Nat.mod_eq_of_lt (hb b1 (List.mem_cons_of_mem _ (List.mem_cons_self _ _)))
        simp [hb1]
    · match rest, hb with
      | [], _ => simp
      | [_], _ => simp
      | _ :: b2 :: r2, hb =>
        have hb2 : b2 % 256 = b2 :=
          Nat.mod_eq_of_lt (hb b2 (List.mem_cons_of_mem _ (List.mem_cons_of_mem _
            (List.mem_cons_self _ _))))
        simp [hb2]
    · by_cases h3 : 3 ≤ rest.length
      · have h4 : 4 ≤ (b0 :: rest).length := by
          simp only [List.length_cons]
          omega
        simp [h3, h4, ERR_BUFFER_OVERFLOW]
      · have h4 : ¬ 4 ≤ (b0 :: rest).length := by
          simp only [List.length_cons]
          omega
        rw [if_neg h3, if_neg h4]

theorem framing_rule_witness :
    (1 ≤ ([15, 7, 8, 9] : List Nat).length ∧ ([15, 7, 8, 9] : List Nat).length ≤ 255 ∧
     (∀ b ∈ ([15, 7, 8, 9] : List Nat), b < 256)) ∧
    (receiveData firstPatExample [15, 7, 8, 9]).param_buffer1
      = (if 3 ≤ ([15, 7, 8, 9] : List Nat).length then ([15, 7, 8, 9] : List Nat).getD 2 0
         else firstPatExample.param_buffer1) ∧
    (receiveData firstPatExample [15, 7, 8, 9]).error_flag
      = (if 4 ≤ ([15, 7, 8, 9] : List Nat).length then 1 else firstPatExample.error_flag) :=
  ⟨by decide,
   (framing_rule firstPatExample [15, 7, 8, 9] (by decide) (by decide) (by decide)).2.2.2.1,
   (framing_rule firstPatExample [15, 7, 8, 9] (by decide) (by decide) (by decide)).2.2.2.2⟩

set_option maxRecDepth 100000 in
/-- C17, as stated, fails for long events: the index of the receive loop is a
`byte`, so in an event of 257 bytes the byte at index 256 is not discarded but
stored as the opcode. -/
theorem discard_long_event_counterexample :
    ¬ ((receiveData (construct 0 0) (15 :: (List.replicate 255 0 ++ [14]))).command = 15) := by
  decide

/-- C17, amended. For a delivery event of any length and content: an iteration
of the receive loop assigns `param_buffer` only when the index is 1 or 2, at
slot index - 1, which is 0 or 1, and otherwise leaves both slots alone; the
operation is a total function that changes nothing but opcode, parameter buffer,
complete flag and pending error. In an event of at most 256 bytes every byte at
event index 3 or higher has no effect except that `ERR_BUFFER_OVERFLOW` is
pending afterwards: the outcome is that of the first three bytes with the error
set. -/
theorem receive_in_bounds (s : vOP) (bytes : List Nat) :
    (∀ (s1 : vOP) (i b : Nat), i ≠ 0 → i < MAX_COMMAND_PARAMETERS →
      i - 1 < 2 ∧
      (receiveByte s1 i b).1 = setParam { s1 with command_complete := 0 } (i - 1) (b % 256)) ∧
    (∀ (s1 : vOP) (i b : Nat), i = 0 ∨ ¬ i < MAX_COMMAND_PARAMETERS →
      (receiveByte s1 i b).1.param_buffer0 = s1.param_buffer0 ∧
      (receiveByte s1 i b).1.param_buffer1 = s1.param_buffer1) ∧
    sameButFrame s (receiveData s bytes) ∧
    (∀ (b0 b1 b2 x : Nat) (rest : List Nat), bytes = b0 :: b1 :: b2 :: x :: rest →
      bytes.length ≤ 256 →
      receiveData s bytes
        = { receiveData s [b0, b1, b2] with error_flag := ERR_BUFFER_OVERFLOW }) := by
  refine ⟨?_, ?_, receiveLoop_frame bytes s 0, ?_⟩
  · intro s1 i b h0 h3
    refine ⟨?_, ?_⟩
    · simp only [MAX_COMMAND_PARAMETERS] at h3
      omega
    · simp [receiveByte, h0, h3]
  · intro s1 i b h
    rcases h with h0 | h3
    · by_cases h10 : b % 256 = END_OF_COMMAND
      · simp [receiveByte, h0, h10]
      · simp [receiveByte, h0, h10]
    · have h0 : i ≠ 0 := by
        intro h0
        apply h3
        rw [h0]
        decide
      simp [receiveByte, h0, h3]
  · intro b0 b1 b2 x rest hbytes hlen
    subst hbytes
    have hrest : (b1 :: b2 :: x :: rest).length ≤ 255 := by
      simp only [List.length_cons] at hlen ⊢
      omega
    rw [receiveData_cons s b0 _ hrest, receiveData_cons s b0 [b1, b2] (by simp)]
    simp

/-- C18. The stored error is cleared by every fill: whatever the prior state,
the error field is 0 after a fill event, and the fill event writes one frame of
exactly 4 bytes whose first byte is the error reported (3 for an incomplete
frame, else the pending error, else 2 for an opcode without a case and 0 for
one with a case) and whose second byte is the stored opcode. -/
theorem error_cleared_by_fill (s : vOP) (now : Nat) :
    (fillRequest s now).1.error_flag = 0 ∧
    (fillRequest s now).2.length = 4 ∧
    (fillRequest s now).2.head? = some
      (if s.command_complete = 1 then
        (if s.error_flag = 0 then (if s.command ∈ knownCommands then 0 else 2)
         else s.error_flag)
       else 3) ∧
    (fillRequest s now).2.get? 1 = some s.command := by
  obtain ⟨f1, _, f3⟩ := fillRequest_frame s now
  have hsnd : (fillRequest s now).2.get? 1 = some (fillRequest s now).1.command := by
    simp [fillRequest]
  refine ⟨f3, by simp [fillRequest], ?_, by rw [hsnd, f1]⟩
  rw [fillRequest_head]
  by_cases hc : s.command_complete = 1
  · by_cases he : s.error_flag = 0
    · rw [if_pos hc, if_pos he, if_pos hc, if_pos he, (dispatchCommand_frame s now).2.2 he]
    · rw [if_pos hc, if_neg he, if_pos hc, if_neg he]
  · rw [if_neg hc, if_neg hc]
    rfl

/-- The switch of `watchDog` never assigns `watchdog_next_run` or
`watchdog_run_interval`. -/
theorem watchDogCheck_next_run (s : vOP) (now : Nat) :
    (watchDogCheck s now).watchdog_next_run = s.watchdog_next_run ∧
    (watchDogCheck s now).watchdog_run_interval = s.watchdog_run_interval := by
  unfold watchDogCheck shutDownHandler
  by_cases h0 : s.watchdog_state = WATCHDOG_STATE_WATCHING
  · rw [if_pos h0]
    by_cases c0 : subUL (millis now) s.watchdog_last_pat
        ≥ mulUI s.watchdog_timeout_interval 1000
    · rw [if_pos c0]
      exact ⟨rfl, rfl⟩
    · rw [if_neg c0]
      exact ⟨rfl, rfl⟩
  · rw [if_neg h0]
    by_cases h1 : s.watchdog_state = WATCHDOG_STATE_SHUTDOWN
    · rw [if_pos h1]
      by_cases c1 : subUL (millis now) s.watchdog_turnoff_time
          ≥ mulUI s.watchdog_turnoff_interval 1000
      · rw [if_pos c1]
        exact ⟨rfl, rfl⟩
      · rw [if_neg c1]
        exact ⟨rfl, rfl⟩
    · rw [if_neg h1]
      by_cases h2 : s.watchdog_state = WATCHDOG_STATE_BOOTING
      · rw [if_pos h2]
        by_cases c2 : subUL (millis now) s.watchdog_boot_time
            ≥ mulUI s.watchdog_boot_interval 1000
        · rw [if_pos c2]
          exact ⟨rfl, rfl⟩
        · rw [if_neg c2]
          exact ⟨rfl, rfl⟩
      · rw [if_neg h2]
        exact ⟨rfl, rfl⟩

/-- In the booting phase the switch does nothing before the boot interval has
elapsed. -/
theorem watchDogCheck_booting (s : vOP) (now : Nat)
    (hst : s.watchdog_state = WATCHDOG_STATE_BOOTING)
    (h : subUL now s.watchdog_boot_time < mulUI s.watchdog_boot_interval 1000) :
    watchDogCheck s now = s := by
  have hnot : ¬ subUL (millis now) s.watchdog_boot_time
      ≥ mulUI s.watchdog_boot_interval 1000 := by
    rw [subUL_millis]
    omega
  simp [watchDogCheck, hst, hnot, WATCHDOG_STATE_SHUTDOWN, WATCHDOG_STATE_WATCHING,
    WATCHDOG_STATE_BOOTING]

/-- In the idle phase the switch does nothing. -/
theorem watchDogCheck_idle (s : vOP) (now : Nat)
    (hst : s.watchdog_state = WATCHDOG_STATE_IDLE) : watchDogCheck s now = s := by
  simp [watchDogCheck, hst, WATCHDOG_STATE_SHUTDOWN, WATCHDOG_STATE_WATCHING,
    WATCHDOG_STATE_BOOTING, WATCHDOG_STATE_IDLE]

/-- A due call in the booting phase at or after the boot interval runs the
shutdown action and goes idle. -/
theorem watchDog_booting_fire (s : vOP) (now : Nat) (hnow : now < 2 ^ 32)
    (hd : watchDogDue s now = true) (hst : s.watchdog_state = WATCHDOG_STATE_BOOTING)
    (h : subUL now s.watchdog_boot_time ≥ mulUI s.watchdog_boot_interval 1000) :
    watchDog s now =
      { s with pin_raspi_relay := true
               power_minimum_off_time := now
               raspberry_power := false
               watchdog_state := WATCHDOG_STATE_IDLE
               watchdog_next_run :=
                 addUL s.watchdog_next_run (mulUI s.watchdog_run_interval 1000) } := by
  have hge : subUL (millis now) s.watchdog_boot_time
      ≥ mulUI s.watchdog_boot_interval 1000 := by
    rw [subUL_millis]
    exact h
  have hne0 : ¬ s.watchdog_state = WATCHDOG_STATE_WATCHING := by
    rw [hst]
    decide
  have hne1 : ¬ s.watchdog_state = WATCHDOG_STATE_SHUTDOWN := by
    rw [hst]
    decide
  have hc : watchDogCheck s now =
      { s with pin_raspi_relay := true
               power_minimum_off_time := now
               raspberry_power := false
               watchdog_state := WATCHDOG_STATE_IDLE } := by
    unfold watchDogCheck shutDownHandler
    rw [if_neg hne0, if_neg hne1, if_pos hst, if_pos hge, millis_of_lt hnow]
  rw [watchDog_eq, if_pos hd, hc]

/-- C19. Boot grace timeout with the default `watchdog_boot_interval = 60`: at
a due watchdog call at time `now` in the booting phase the shutdown action runs
(`raspberry_power = false`, `power_minimum_off_time = now`) and the phase
becomes idle if and only if `(now - watchdog_boot_time) mod 2^32 >= 60000`;
otherwise nothing but `watchdog_next_run` changes, so phase, power and boot
timer are as before. In the idle phase a due call changes nothing but
`watchdog_next_run`. -/
theorem boot_grace_timeout (s : vOP) (now : Nat) (hnow : now < 2 ^ 32)
    (hd : watchDogDue s now = true) (hbi : s.watchdog_boot_interval = 60) :
    (s.watchdog_state = WATCHDOG_STATE_BOOTING →
      (((watchDog s now).watchdog_state = WATCHDOG_STATE_IDLE ∧
        (watchDog s now).raspberry_power = false ∧
        (watchDog s now).power_minimum_off_time = now) ↔
          subUL now s.watchdog_boot_time ≥ 60000) ∧
      (subUL now s.watchdog_boot_time < 60000 →
        sameButNextRun s (watchDog s now) ∧
        (watchDog s now).watchdog_state = WATCHDOG_STATE_BOOTING ∧
        (watchDog s now).raspberry_power = s.raspberry_power ∧
        (watchDog s now).watchdog_boot_time = s.watchdog_boot_time)) ∧
    (s.watchdog_state = WATCHDOG_STATE_IDLE →
      watchDog s now =
        { s with watchdog_next_run :=
                   addUL s.watchdog_next_run (mulUI s.watchdog_run_interval 1000) }) := by
  have hm60 : mulUI 60 1000 = 60000 := by decide
  constructor
  · intro hst
    have hstay : subUL now s.watchdog_boot_time < 60000 →
        sameButNextRun s (watchDog s now) ∧
        (watchDog s now).watchdog_state = WATCHDOG_STATE_BOOTING ∧
        (watchDog s now).raspberry_power = s.raspberry_power ∧
        (watchDog s now).watchdog_boot_time = s.watchdog_boot_time := by
      intro hlt
      have hq := watchDog_quiet s now
        (fun _ => watchDogCheck_booting s now hst (by rw [hbi, hm60]; exact hlt))
      have hbt : (watchDog s now).watchdog_boot_time = s.watchdog_boot_time := by
        unfold sameButNextRun at hq
        rw [hq]
      obtain ⟨f1, _, _, _, _, f6, _, _⟩ := sameButNextRun_fields hq
      exact ⟨hq, by rw [f1, hst], f6, hbt⟩
    refine ⟨⟨?_, ?_⟩, hstay⟩
    · intro hidle
      by_contra hlt
      have := (hstay (by omega)).2.1
      rw [this] at hidle
      exact absurd hidle.1 (by decide)
    · intro hge
      rw [watchDog_booting_fire s now hnow hd hst (by rw [hbi, hm60]; exact hge)]
      exact ⟨rfl, rfl, rfl⟩
  · intro hst
    rw [watchDog_eq, if_pos hd, watchDogCheck_idle s now hst]

theorem boot_grace_timeout_witness :
    ((65000 : Nat) < 2 ^ 32 ∧ watchDogDue bootingExample 65000 = true ∧
     bootingExample.watchdog_boot_interval = 60 ∧
     bootingExample.watchdog_state = WATCHDOG_STATE_BOOTING ∧
     bootingExample.watchdog_boot_time = 5000 ∧ bootingExample.raspberry_power = true) ∧
    (watchDog bootingExample 65000).watchdog_state = WATCHDOG_STATE_IDLE ∧
    (watchDog bootingExample 65000).raspberry_power = false ∧
    (watchDog bootingExample 65000).power_minimum_off_time = 65000 :=
  ⟨by decide,
   (((boot_grace_timeout bootingExample 65000 (by decide) (by decide) (by decide)).1
      (by decide)).1).2 (by decide)⟩

/-- C20. Watchdog polling gate: a call of `watchDog` executes its check exactly
when watchdog mode is on and
`(now - watchdog_next_run) mod 2^32 >= watchdog_run_interval*1000` (the
`unsigned int` product: 5000 for the default 5, and the plain product whenever
that is below 2^16). When it does not execute, in particular always with
watchdog mode off, the whole state is unchanged; when it executes, the state is
that of the switch with
`watchdog_next_run = (watchdog_next_run + watchdog_run_interval*1000) mod 2^32`,
whatever `now` is. -/
theorem watchdog_gate (s : vOP) (now : Nat) :
    (watchDogDue s now = true ↔
      (s.watchdog_mode = true ∧
       subUL now s.watchdog_next_run ≥ mulUI s.watchdog_run_interval 1000)) ∧
    (s.watchdog_run_interval = 5 → mulUI s.watchdog_run_interval 1000 = 5000) ∧
    (s.watchdog_run_interval * 1000 < 65536 →
      mulUI s.watchdog_run_interval 1000 = s.watchdog_run_interval * 1000) ∧
    (watchDogDue s now = false → watchDog s now = s) ∧
    (s.watchdog_mode = false → watchDog s now = s) ∧
    (watchDogDue s now = true →
      watchDog s now =
        { watchDogCheck s now with
          watchdog_next_run :=
            (s.watchdog_next_run + mulUI s.watchdog_run_interval 1000) % 2 ^ 32 } ∧
      (watchDog s now).watchdog_next_run
        = (s.watchdog_next_run + mulUI s.watchdog_run_interval 1000) % 2 ^ 32) := by
  obtain ⟨hn, hr⟩ := watchDogCheck_next_run s now
  refine ⟨?_, ?_, ?_, ?_, ?_, ?_⟩
  · simp [watchDogDue, subUL_millis]
  · intro h
    rw [h]
    decide
  · intro h
    unfold mulUI
    omega
  · intro h
    rw [watchDog_eq, h]
    rfl
  · intro h
    rw [watchDog_eq]
    simp [watchDogDue, h]
  · intro h
    have heq : watchDog s now =
        { watchDogCheck s now with
          watchdog_next_run :=
            (s.watchdog_next_run + mulUI s.watchdog_run_interval 1000) % 2 ^ 32 } := by
      rw [watchDog_eq, if_pos h, hn, hr]
      rfl
    exact ⟨heq, by rw [heq]⟩

/-! ## The stamp `ignition_delta_time` outside the failing input of C12 -/

/-- The switch of `watchDog` and the power sequencer never assign the ignition
latch or `ignition_delta_time`. -/
theorem watchDogCheck_ignition (s : vOP) (now : Nat) :
    (watchDogCheck s now).ignition_state = s.ignition_state ∧
    (watchDogCheck s now).ignition_delta_time = s.ignition_delta_time := by
  unfold watchDogCheck shutDownHandler
  by_cases h0 : s.watchdog_state = WATCHDOG_STATE_WATCHING
  · rw [if_pos h0]
    by_cases c0 : subUL (millis now) s.watchdog_last_pat
        ≥ mulUI s.watchdog_timeout_interval 1000
    · rw [if_pos c0]
      exact ⟨rfl, rfl⟩
    · rw [if_neg c0]
      exact ⟨rfl, rfl⟩
  · rw [if_neg h0]
    by_cases h1 : s.watchdog_state = WATCHDOG_STATE_SHUTDOWN
    · rw [if_pos h1]
      by_cases c1 : subUL (millis now) s.watchdog_turnoff_time
          ≥ mulUI s.watchdog_turnoff_interval 1000
      · rw [if_pos c1]
        exact ⟨rfl, rfl⟩
      · rw [if_neg c1]
        exact ⟨rfl, rfl⟩
    · rw [if_neg h1]
      by_cases h2 : s.watchdog_state = WATCHDOG_STATE_BOOTING
      · rw [if_pos h2]
        by_cases c2 : subUL (millis now) s.watchdog_boot_time
            ≥ mulUI s.watchdog_boot_interval 1000
        · rw [if_pos c2]
          exact ⟨rfl, rfl⟩
        · rw [if_neg c2]
          exact ⟨rfl, rfl⟩
      · rw [if_neg h2]
        exact ⟨rfl, rfl⟩

theorem watchDog_ignition (s : vOP) (now : Nat) :
    (watchDog s now).ignition_state = s.ignition_state ∧
    (watchDog s now).ignition_delta_time = s.ignition_delta_time := by
  rw [watchDog_eq]
  by_cases hd : watchDogDue s now = true
  · rw [if_pos hd]
    exact watchDogCheck_ignition s now
  · rw [if_neg hd]
    exact ⟨rfl, rfl⟩

theorem bootUpHandler_ignition (s : vOP) (now : Nat) :
    (bootUpHandler s now).ignition_state = s.ignition_state ∧
    (bootUpHandler s now).ignition_delta_time = s.ignition_delta_time := by
  unfold bootUpHandler
  by_cases hp : (!s.raspberry_power) = true
  · rw [if_pos hp]
    by_cases hi : s.ignition_state = true
    · rw [if_pos hi]
      by_cases hg : subUL (millis now) s.power_minimum_off_time
          ≥ mulUI s.power_minimum_off_interval 1000
      · rw [if_pos hg]
        exact ⟨rfl, rfl⟩
      · rw [if_neg hg]
        exact ⟨rfl, rfl⟩
    · rw [if_neg hi]
      exact ⟨rfl, rfl⟩
  · rw [if_neg hp]
    exact ⟨rfl, rfl⟩

/-- The command handler stamps `ignition_delta_time` only together with a flip
of the latch, as long as the parameter of opcode 101 is 0 or 1. -/
theorem dispatchCommand_stamp (s : vOP) (now : Nat)
    (hp : s.command = CMD_DEBUG_SET_IGN_STATE → s.param_buffer0 ≤ 1)
    (hchg : (dispatchCommand s now).1.ignition_delta_time ≠ s.ignition_delta_time) :
    (dispatchCommand s now).1.ignition_state ≠ s.ignition_state := by
  by_cases h101 : s.command = CMD_DEBUG_SET_IGN_STATE
  · have hp0 := hp h101
    have hd : dispatchCommand s now =
        if boolToNat s.ignition_state ≠ s.param_buffer0 then
          ({ s with ignition_state := decide (s.param_buffer0 ≠ 0)
                    ignition_delta_time := millis now }, ⟨true, 0, 0, 0⟩)
        else (s, ⟨true, 0, 0, 0⟩) := by
      simp [dispatchCommand, h101, CMD_GET_IGNITION_STATE,
        CMD_GET_LAST_IGNITION_CHANGE_SECONDS, CMD_GET_LAST_IGNITION_CHANGE_MINUTES,
        CMD_ECHO, CMD_PAT_WATCHDOG, CMD_DEBUG_SET_IGN_DETECT, CMD_DEBUG_SET_IGN_STATE]
    rw [hd] at hchg ⊢
    by_cases hne : boolToNat s.ignition_state ≠ s.param_buffer0
    · rw [if_pos hne]
      cases hL : s.ignition_state <;> simp [boolToNat, hL] at hne ⊢ <;> omega
    · rw [if_neg hne] at hchg
      exact absurd rfl hchg
  · by_cases hk : s.command ∈ knownCommands
    · simp only [knownCommands, List.mem_cons, List.mem_singleton, List.not_mem_nil,
        or_false] at hk
      rcases hk with h | h | h | h | h | h | h | h | h | h
      all_goals first
        | exact absurd h h101
        | (exfalso
           apply hchg
           simp [dispatchCommand, h, CMD_GET_IGNITION_STATE,
             CMD_GET_LAST_IGNITION_CHANGE_SECONDS, CMD_GET_LAST_IGNITION_CHANGE_MINUTES,
             CMD_ECHO, CMD_PAT_WATCHDOG, CMD_DEBUG_SET_IGN_DETECT, CMD_DEBUG_SET_IGN_STATE,
             CMD_DEBUG_GET_IGN_DETECT, CMD_DEBUG_GET_TEST_VALUE, CMD_DEBUG_GET_WDT_STATE,
             resetWatchDog])
    · rw [(dispatchCommand_error_unknown s now hk).1] at hchg
      exact absurd rfl hchg

/-- Every operation other than a fill event of opcode 101 with a parameter
above 1 changes `ignition_delta_time` only when it flips the latch: debounce
calls, delivery events, watchdog calls, boot and shutdown actions, and fill
events of any other opcode or of opcode 101 with parameter 0 or 1. -/
theorem stamp_only_on_flip (s : vOP) (now : Nat) (v : Bool) (bytes : List Nat) :
    ((debounceIgnition s now v).ignition_delta_time ≠ s.ignition_delta_time →
      (debounceIgnition s now v).ignition_state ≠ s.ignition_state) ∧
    (receiveData s bytes).ignition_delta_time = s.ignition_delta_time ∧
    (watchDog s now).ignition_delta_time = s.ignition_delta_time ∧
    (bootUpHandler s now).ignition_delta_time = s.ignition_delta_time ∧
    (shutDownHandler s now).ignition_delta_time = s.ignition_delta_time ∧
    ((s.command = CMD_DEBUG_SET_IGN_STATE → s.param_buffer0 ≤ 1) →
      (fillRequest s now).1.ignition_delta_time ≠ s.ignition_delta_time →
      (fillRequest s now).1.ignition_state ≠ s.ignition_state) := by
  refine ⟨?_, ?_, (watchDog_ignition s now).2, (bootUpHandler_ignition s now).2, rfl, ?_⟩
  · intro hchg
    by_cases hL : s.ignition_state = v
    · exact absurd (debounceIgnition_same s now v hL).2 hchg
    · cases hd : debounceDue s now
      · rw [debounceIgnition_not_due s now v hd] at hchg
        exact absurd rfl hchg
      · obtain ⟨hflip, hkeep⟩ := debounceIgnition_step s now v hL hd
        by_cases hk : samplesToLatch s v = 1
        · rw [(hflip hk).1]
          exact fun h => hL h.symm
        · exact absurd (hkeep hk).2.1 hchg
  · have h := receiveLoop_frame bytes s 0
    unfold sameButFrame at h
    unfold receiveData
    rw [h]
  · intro hp hchg
    unfold fillRequest at hchg ⊢
    by_cases hc : s.command_complete = 1
    · by_cases he : s.error_flag = 0
      · simp only [hc, he, if_true] at hchg ⊢
        exact dispatchCommand_stamp s now hp hchg
      · simp only [hc, he, if_true, if_false] at hchg
        exact absurd rfl hchg
    · simp only [hc, if_false] at hchg
      exact absurd rfl hchg

/-! ## Boot action, differing samples -/

/-- The boot action when its three conditions hold. -/
theorem bootUpHandler_act (s : vOP) (now : Nat) (hp : s.raspberry_power = false)
    (hi : s.ignition_state = true)
    (hg : subUL now s.power_minimum_off_time ≥ mulUI s.power_minimum_off_interval 1000) :
    bootUpHandler s now =
      { s with pin_raspi_relay := false
               raspberry_power := true
               watchdog_state := WATCHDOG_STATE_BOOTING
               watchdog_boot_time := millis now } := by
  have hg1 : subUL (millis now) s.power_minimum_off_time
      ≥ mulUI s.power_minimum_off_interval 1000 := by
    rw [subUL_millis]
    exact hg
  unfold bootUpHandler
  rw [hp, hi, if_pos hg1]
  rfl

/-- The boot action when one of its three conditions fails. -/
theorem bootUpHandler_skip (s : vOP) (now : Nat)
    (h : ¬ (s.raspberry_power = false ∧ s.ignition_state = true ∧
      subUL now s.power_minimum_off_time ≥ mulUI s.power_minimum_off_interval 1000)) :
    bootUpHandler s now = s := by
  unfold bootUpHandler
  cases hp : s.raspberry_power
  · cases hi : s.ignition_state
    · rfl
    · have hg : ¬ subUL (millis now) s.power_minimum_off_time
          ≥ mulUI s.power_minimum_off_interval 1000 := by
        rw [subUL_millis]
        exact fun hg => h ⟨hp, hi, hg⟩
      simp [hg]
  · rfl

/-- C21. Boot acts exactly under its three conditions: `bootUpHandler` changes
the state if and only if the device is unpowered, the ignition is latched on and
`(now - power_minimum_off_time) mod 2^32 >= power_minimum_off_interval*1000`
(the `unsigned int` product); in every other case, in particular whenever the
device is powered, the whole state is unchanged. When it acts it powers the
device (relay line driven low, `raspberry_power = true`), sets the phase
`WATCHDOG_STATE_BOOTING` and the boot timer `now`, and changes no other field,
so last pat, next poll, `power_minimum_off_time`, ignition and protocol state
are kept. -/
theorem boot_conditions (s : vOP) (now : Nat) (hnow : now < 2 ^ 32) :
    (bootUpHandler s now ≠ s ↔
      (s.raspberry_power = false ∧ s.ignition_state = true ∧
       subUL now s.power_minimum_off_time ≥ mulUI s.power_minimum_off_interval 1000)) ∧
    (¬ (s.raspberry_power = false ∧ s.ignition_state = true ∧
        subUL now s.power_minimum_off_time ≥ mulUI s.power_minimum_off_interval 1000) →
      bootUpHandler s now = s) ∧
    (s.raspberry_power = true → bootUpHandler s now = s) ∧
    ((s.raspberry_power = false ∧ s.ignition_state = true ∧
      subUL now s.power_minimum_off_time ≥ mulUI s.power_minimum_off_interval 1000) →
      bootUpHandler s now =
        { s with pin_raspi_relay := false
                 raspberry_power := true
                 watchdog_state := WATCHDOG_STATE_BOOTING
                 watchdog_boot_time := now }) := by
  have hact : (s.raspberry_power = false ∧ s.ignition_state = true ∧
      subUL now s.power_minimum_off_time ≥ mulUI s.power_minimum_off_interval 1000) →
      bootUpHandler s now =
        { s with pin_raspi_relay := false
                 raspberry_power := true
                 watchdog_state := WATCHDOG_STATE_BOOTING
                 watchdog_boot_time := now } := by
    intro h
    rw [bootUpHandler_act s now h.1 h.2.1 h.2.2, millis_of_lt hnow]
  refine ⟨⟨?_, ?_⟩, bootUpHandler_skip s now, ?_, hact⟩
  · intro hne
    by_contra hc
    exact hne (bootUpHandler_skip s now hc)
  · intro h heq
    have hpow : (bootUpHandler s now).raspberry_power = true := by
      rw [hact h]
    rw [heq, h.1] at hpow
    exact absurd hpow (by decide)
  · intro hp
    apply bootUpHandler_skip
    intro h
    rw [hp] at h
    exact absurd h.1 (by decide)

theorem boot_conditions_witness :
    ((5000 : Nat) < 2 ^ 32 ∧
     (fillRequest (receiveData (receiveData (construct 0 0) [101, 1, 0]) [10])
        0).1.raspberry_power = false ∧
     (fillRequest (receiveData (receiveData (construct 0 0) [101, 1, 0]) [10])
        0).1.ignition_state = true) ∧
    bootUpHandler (fillRequest (receiveData (receiveData (construct 0 0) [101, 1, 0]) [10]) 0).1
        4999
      = (fillRequest (receiveData (receiveData (construct 0 0) [101, 1, 0]) [10]) 0).1 ∧
    (bootUpHandler (fillRequest (receiveData (receiveData (construct 0 0) [101, 1, 0]) [10]) 0).1
        5000).watchdog_boot_time = 5000 :=
  ⟨by decide,
   (boot_conditions (fillRequest (receiveData (receiveData (construct 0 0) [101, 1, 0]) [10])
      0).1 4999 (by decide)).2.1 (by decide),
   by
     rw [(boot_conditions (fillRequest (receiveData (receiveData (construct 0 0) [101, 1, 0])
       [10]) 0).1 5000 (by decide)).2.2.2 (by decide)]⟩

/-- C22. A differing sample gives no partial credit: with the sampling gate
open, a debounce call whose sample differs from the previous sample sets the
run-length counter to 0 whatever it was, records the sample as the previous
sample, advances the next-check time, and changes nothing else: the latch and
`ignition_delta_time` are as before. -/
theorem differing_sample_resets (s : vOP) (now : Nat) (v : Bool)
    (hd : debounceDue s now = true)
    (hdiff : boolToNat v ≠ s.debounce_last_ignition_state) :
    debounceIgnition s now v =
      { s with debounce_counter_ignition := 0
               debounce_last_ignition_state := boolToNat v
               debounce_next_ignition_time :=
                 addUL s.debounce_next_ignition_time CHECK_IGNITION_INTERVAL } ∧
    (debounceIgnition s now v).debounce_counter_ignition = 0 ∧
    (debounceIgnition s now v).debounce_last_ignition_state = boolToNat v ∧
    (debounceIgnition s now v).ignition_state = s.ignition_state ∧
    (debounceIgnition s now v).ignition_delta_time = s.ignition_delta_time := by
  have hg : subUL (millis now) s.debounce_next_ignition_time ≥ CHECK_IGNITION_INTERVAL := by
    simpa [debounceDue] using hd
  have heq : debounceIgnition s now v =
      { s with debounce_counter_ignition := 0
               debounce_last_ignition_state := boolToNat v
               debounce_next_ignition_time :=
                 addUL s.debounce_next_ignition_time CHECK_IGNITION_INTERVAL } := by
    unfold debounceIgnition
    rw [if_pos hg]
    dsimp only
    rw [if_neg hdiff]
  refine ⟨heq, ?_, ?_, ?_, ?_⟩ <;> rw [heq]

theorem differing_sample_resets_witness :
    (debounceDue (debounceRun (construct 0 0) true [50, 100, 150]) 200 = true ∧
     boolToNat false
       ≠ (debounceRun (construct 0 0) true [50, 100, 150]).debounce_last_ignition_state ∧
     (debounceRun (construct 0 0) true [50, 100, 150]).debounce_counter_ignition = 2) ∧
    (debounceIgnition (debounceRun (construct 0 0) true [50, 100, 150]) 200
      false).debounce_counter_ignition = 0 :=
  ⟨by decide,
   (differing_sample_resets (debounceRun (construct 0 0) true [50, 100, 150]) 200 false
      (by decide) (by decide)).2.1⟩

/-! ## Power and watchdog phase over event sequences -/

/-- The four outcomes of the switch of `watchDog`. -/
theorem watchDogCheck_cases (s : vOP) (now : Nat) :
    watchDogCheck s now = s ∨
    watchDogCheck s now =
      { s with test := incByte s.test
               watchdog_state := WATCHDOG_STATE_SHUTDOWN
               watchdog_turnoff_time := millis now } ∨
    watchDogCheck s now =
      { s with test := incByte s.test
               pin_raspi_relay := true
               power_minimum_off_time := millis now
               raspberry_power := false
               watchdog_state := WATCHDOG_STATE_IDLE } ∨
    watchDogCheck s now =
      { s with pin_raspi_relay := true
               power_minimum_off_time := millis now
               raspberry_power := false
               watchdog_state := WATCHDOG_STATE_IDLE } := by
  unfold watchDogCheck shutDownHandler
  by_cases h0 : s.watchdog_state = WATCHDOG_STATE_WATCHING
  · rw [if_pos h0]
    by_cases c0 : subUL (millis now) s.watchdog_last_pat
        ≥ mulUI s.watchdog_timeout_interval 1000
    · rw [if_pos c0]
      exact Or.inr (Or.inl rfl)
    · rw [if_neg c0]
      exact Or.inl rfl
  · rw [if_neg h0]
    by_cases h1 : s.watchdog_state = WATCHDOG_STATE_SHUTDOWN
    · rw [if_pos h1]
      by_cases c1 : subUL (millis now) s.watchdog_turnoff_time
          ≥ mulUI s.watchdog_turnoff_interval 1000
      · rw [if_pos c1]
        exact Or.inr (Or.inr (Or.inl rfl))
      · rw [if_neg c1]
        exact Or.inl rfl
    · rw [if_neg h1]
      by_cases h2 : s.watchdog_state = WATCHDOG_STATE_BOOTING
      · rw [if_pos h2]
        by_cases c2 : subUL (millis now) s.watchdog_boot_time
            ≥ mulUI s.watchdog_boot_interval 1000
        · rw [if_pos c2]
          exact Or.inr (Or.inr (Or.inr rfl))
        · rw [if_neg c2]
          exact Or.inl rfl
      · rw [if_neg h2]
        exact Or.inl rfl

theorem watchdog_states_distinct :
    WATCHDOG_STATE_WATCHING ≠ WATCHDOG_STATE_IDLE ∧
    WATCHDOG_STATE_WATCHING ≠ WATCHDOG_STATE_BOOTING ∧
    WATCHDOG_STATE_SHUTDOWN ≠ WATCHDOG_STATE_IDLE ∧
    WATCHDOG_STATE_SHUTDOWN ≠ WATCHDOG_STATE_BOOTING ∧
    WATCHDOG_STATE_IDLE ≠ WATCHDOG_STATE_BOOTING ∧
    WATCHDOG_STATE_BOOTING ≠ WATCHDOG_STATE_IDLE := by
  decide

theorem powerConsistent_watchDogCheck (s : vOP) (now : Nat) (h : powerConsistent s) :
    powerConsistent (watchDogCheck s now) := by
  rcases watchDogCheck_cases s now with hc | hc | hc | hc <;> rw [hc]
  · exact h
  · exact ⟨fun hst => absurd hst watchdog_states_distinct.2.2.1,
      fun hst => absurd hst watchdog_states_distinct.2.2.2.1⟩
  · exact ⟨fun _ => rfl, fun hst => absurd hst watchdog_states_distinct.2.2.2.2.1⟩
  · exact ⟨fun _ => rfl, fun hst => absurd hst watchdog_states_distinct.2.2.2.2.1⟩

theorem powerConsistent_watchDog (s : vOP) (now : Nat) (h : powerConsistent s) :
    powerConsistent (watchDog s now) := by
  rw [watchDog_eq]
  by_cases hd : watchDogDue s now = true
  · rw [if_pos hd]
    exact powerConsistent_watchDogCheck s now h
  · rw [if_neg hd]
    exact h

theorem powerConsistent_bootUpHandler (s : vOP) (now : Nat) (h : powerConsistent s) :
    powerConsistent (bootUpHandler s now) := by
  by_cases hc : s.raspberry_power = false ∧ s.ignition_state = true ∧
      subUL now s.power_minimum_off_time ≥ mulUI s.power_minimum_off_interval 1000
  · rw [bootUpHandler_act s now hc.1 hc.2.1 hc.2.2]
    exact ⟨fun hst => absurd hst watchdog_states_distinct.2.2.2.2.2, fun _ => rfl⟩
  · rw [bootUpHandler_skip s now hc]
    exact h

/-- The debounce filter never assigns the watchdog phase or the power state. -/
theorem debounceIgnition_power (s : vOP) (t : Nat) (v : Bool) :
    (debounceIgnition s t v).watchdog_state = s.watchdog_state ∧
    (debounceIgnition s t v).raspberry_power = s.raspberry_power := by
  unfold debounceIgnition
  by_cases hg : subUL (millis t) s.debounce_next_ignition_time ≥ CHECK_IGNITION_INTERVAL
  · by_cases hlast : boolToNat v = s.debounce_last_ignition_state
    · by_cases hcnt : incByte s.debounce_counter_ignition ≥ CHECK_IGNITION_RETRIES
      · by_cases hL : s.ignition_state = v
        · simp [hg, hlast, hcnt, hL]
        · simp [hg, hlast, hcnt, hL]
      · simp [hg, hlast, hcnt]
    · simp [hg, hlast]
  · simp [hg]

theorem powerConsistent_loop (s : vOP) (now : Nat) (pin : Bool) (h : powerConsistent s) :
    powerConsistent (loop s now pin) := by
  unfold loop
  apply powerConsistent_bootUpHandler
  apply powerConsistent_watchDog
  by_cases hdbg : s.debug_ign_debounce ≠ 0
  · rw [if_pos hdbg]
    obtain ⟨h1, h2⟩ := debounceIgnition_power s now pin
    unfold powerConsistent
    rw [h1, h2]
    exact h
  · rw [if_neg hdbg]
    exact h

theorem powerConsistent_receiveData (s : vOP) (bytes : List Nat) (h : powerConsistent s) :
    powerConsistent (receiveData s bytes) := by
  have hf := receiveLoop_frame bytes s 0
  unfold sameButFrame at hf
  unfold receiveData powerConsistent
  rw [hf]
  exact h

/-- The command handler never assigns the power state, and it leaves the
watchdog phase as it is or sets it to watching. -/
theorem dispatchCommand_power (s : vOP) (now : Nat) :
    (dispatchCommand s now).1.raspberry_power = s.raspberry_power ∧
    ((dispatchCommand s now).1.watchdog_state = s.watchdog_state ∨
     (dispatchCommand s now).1.watchdog_state = WATCHDOG_STATE_WATCHING) := by
  by_cases hk : s.command ∈ knownCommands
  · simp only [knownCommands, List.mem_cons, List.mem_singleton, List.not_mem_nil,
      or_false] at hk
    rcases hk with h | h | h | h | h | h | h | h | h | h
    all_goals
      simp [dispatchCommand, h, CMD_GET_IGNITION_STATE,
        CMD_GET_LAST_IGNITION_CHANGE_SECONDS, CMD_GET_LAST_IGNITION_CHANGE_MINUTES, CMD_ECHO,
        CMD_PAT_WATCHDOG, CMD_DEBUG_SET_IGN_DETECT, CMD_DEBUG_SET_IGN_STATE,
        CMD_DEBUG_GET_IGN_DETECT, CMD_DEBUG_GET_TEST_VALUE, CMD_DEBUG_GET_WDT_STATE,
        resetWatchDog]
    all_goals (split <;> simp)
  · rw [(dispatchCommand_error_unknown s now hk).1]
    exact ⟨rfl, Or.inl rfl⟩

theorem powerConsistent_fillRequest (s : vOP) (now : Nat) (h : powerConsistent s) :
    powerConsistent (fillRequest s now).1 := by
  have hfill : (fillRequest s now).1.raspberry_power = s.raspberry_power ∧
      ((fillRequest s now).1.watchdog_state = s.watchdog_state ∨
       (fillRequest s now).1.watchdog_state = WATCHDOG_STATE_WATCHING) := by
    unfold fillRequest
    by_cases hc : s.command_complete = 1
    · by_cases he : s.error_flag = 0
      · simp only [hc, he, if_true]
        exact dispatchCommand_power s now
      · simp only [hc, he, if_true, if_false]
        exact ⟨trivial, Or.inl trivial⟩
    · simp only [hc, if_false]
      exact ⟨trivial, Or.inl trivial⟩
  obtain ⟨hp, hst | hst⟩ := hfill
  · unfold powerConsistent
    rw [hp, hst]
    exact h
  · unfold powerConsistent
    rw [hst]
    exact ⟨fun h0 => absurd h0 watchdog_states_distinct.1,
      fun h0 => absurd h0 watchdog_states_distinct.2.1⟩

theorem powerConsistent_step (s : vOP) (e : Event) (h : powerConsistent s) :
    powerConsistent (step s e) := by
  cases e with
  | iteration now pin => exact powerConsistent_loop s now pin h
  | delivery bytes => exact powerConsistent_receiveData s bytes h
  | request now => exact powerConsistent_fillRequest s now h

theorem powerConsistent_run (es : List Event) :
    ∀ s : vOP, powerConsistent s → powerConsistent (run s es) := by
  induction es with
  | nil => intro s h; exact h
  | cons e es ih =>
    intro s h
    exact ih (step s e) (powerConsistent_step s e h)

/-- C23. Power/watchdog consistency: in every state reached from the
constructor's state (whatever the two uninitialised parameter bytes) by any
sequence of loop iterations, delivery events and fill events, with arbitrary
clock values, pin levels and bytes, the idle phase implies
`raspberry_power = false` and the booting phase implies
`raspberry_power = true`. -/
theorem power_watchdog_consistency (param0 param1 : Nat) (es : List Event) :
    ((run (construct param0 param1) es).watchdog_state = WATCHDOG_STATE_IDLE →
      (run (construct param0 param1) es).raspberry_power = false) ∧
    ((run (construct param0 param1) es).watchdog_state = WATCHDOG_STATE_BOOTING →
      (run (construct param0 param1) es).raspberry_power = true) :=
  powerConsistent_run es (construct param0 param1)
    ⟨fun _ => rfl, fun hst => absurd hst watchdog_states_distinct.2.2.2.2.1⟩

/-! ## Catch-up of the watchdog schedule -/

/-- A due call of `watchDog` keeps the mode and the run interval and advances
`watchdog_next_run` by one run interval. -/
theorem watchDog_due_step (s : vOP) (now : Nat) (hd : watchDogDue s now = true) :
    (watchDog s now).watchdog_mode = s.watchdog_mode ∧
    (watchDog s now).watchdog_run_interval = s.watchdog_run_interval ∧
    (watchDog s now).watchdog_next_run
      = addUL s.watchdog_next_run (mulUI s.watchdog_run_interval 1000) := by
  obtain ⟨hn, hr⟩ := watchDogCheck_next_run s now
  have hm : (watchDogCheck s now).watchdog_mode = s.watchdog_mode := by
    rcases watchDogCheck_cases s now with hc | hc | hc | hc <;> rw [hc]
  rw [watchDog_eq, if_pos hd]
  exact ⟨hm, hr, by rw [hn, hr]⟩

/-- The elapsed time since `watchdog_next_run` at a due call, before and after
the advance. -/
theorem watchDog_due_elapsed (s : vOP) (now : Nat) (hd : watchDogDue s now = true) :
    mulUI s.watchdog_run_interval 1000 ≤ subUL now s.watchdog_next_run ∧
    subUL now (watchDog s now).watchdog_next_run
      = subUL now s.watchdog_next_run - mulUI s.watchdog_run_interval 1000 := by
  have hg : mulUI s.watchdog_run_interval 1000 ≤ subUL now s.watchdog_next_run := by
    have h := hd
    simp only [watchDogDue, Bool.and_eq_true, decide_eq_true_eq, subUL_millis] at h
    exact h.2
  refine ⟨hg, ?_⟩
  rw [(watchDog_due_step s now hd).2.2]
  unfold subUL addUL mulUI at *
  omega

theorem watchDog_not_due (s : vOP) (now : Nat) (hd : watchDogDue s now = false) :
    watchDog s now = s := by
  rw [watchDog_eq, hd]
  rfl

/-- Repeated calls of `watchDog` at one clock value: the call number `i`
(counting from 0) is due exactly when `i` is below the number of whole run
intervals elapsed since `watchdog_next_run`. -/
theorem watchDogPolls_catch_up (now : Nat) (i : Nat) :
    ∀ s : vOP, s.watchdog_mode = true → 0 < mulUI s.watchdog_run_interval 1000 →
      watchDogDue (watchDogPolls s (List.replicate i now)) now
        = decide (i < subUL now s.watchdog_next_run / mulUI s.watchdog_run_interval 1000) := by
  induction i with
  | zero =>
    intro s hm hR
    show watchDogDue s now = _
    by_cases hg : mulUI s.watchdog_run_interval 1000 ≤ subUL now s.watchdog_next_run
    · have hpos := Nat.div_pos hg hR
      simp [watchDogDue, hm, subUL_millis, hg, hpos]
    · have hz : subUL now s.watchdog_next_run / mulUI s.watchdog_run_interval 1000 = 0 :=
        Nat.div_eq_of_lt (by omega)
      simp [watchDogDue, hm, subUL_millis, hg, hz]
  | succ i ih =>
    intro s hm hR
    rw [List.replicate_succ, watchDogPolls_cons]
    cases hd : watchDogDue s now
    · rw [watchDog_not_due s now hd, ih s hm hR]
      have hlt : subUL now s.watchdog_next_run < mulUI s.watchdog_run_interval 1000 := by
        have h := hd
        simp only [watchDogDue, hm, Bool.true_and, decide_eq_false_iff_not, subUL_millis]
          at h
        omega
      rw [Nat.div_eq_of_lt hlt]
      simp
    · obtain ⟨hm1, hr1, _⟩ := watchDog_due_step s now hd
      obtain ⟨hge, hel⟩ := watchDog_due_elapsed s now hd
      rw [ih (watchDog s now) (hm1.trans hm) (by rw [hr1]; exact hR), hel, hr1,
        Nat.div_eq_sub_div hR hge]
      simp

/-- The debounce filter never assigns the watchdog mode or the run interval. -/
theorem debounceIgnition_schedule (s : vOP) (t : Nat) (v : Bool) :
    (debounceIgnition s t v).watchdog_mode = s.watchdog_mode ∧
    (debounceIgnition s t v).watchdog_run_interval = s.watchdog_run_interval := by
  unfold debounceIgnition
  by_cases hg : subUL (millis t) s.debounce_next_ignition_time ≥ CHECK_IGNITION_INTERVAL
  · by_cases hlast : boolToNat v = s.debounce_last_ignition_state
    · by_cases hcnt : incByte s.debounce_counter_ignition ≥ CHECK_IGNITION_RETRIES
      · by_cases hL : s.ignition_state = v
        · simp [hg, hlast, hcnt, hL]
        · simp [hg, hlast, hcnt, hL]
      · simp [hg, hlast, hcnt]
    · simp [hg, hlast]
  · simp [hg]

theorem watchDog_schedule (s : vOP) (now : Nat) :
    (watchDog s now).watchdog_mode = s.watchdog_mode ∧
    (watchDog s now).watchdog_run_interval = s.watchdog_run_interval := by
  cases hd : watchDogDue s now
  · rw [watchDog_not_due s now hd]
    exact ⟨rfl, rfl⟩
  · exact ⟨(watchDog_due_step s now hd).1, (watchDog_due_step s now hd).2.1⟩

theorem bootUpHandler_schedule (s : vOP) (now : Nat) :
    (bootUpHandler s now).watchdog_mode = s.watchdog_mode ∧
    (bootUpHandler s now).watchdog_run_interval = s.watchdog_run_interval := by
  by_cases hc : s.raspberry_power = false ∧ s.ignition_state = true ∧
      subUL now s.power_minimum_off_time ≥ mulUI s.power_minimum_off_interval 1000
  · rw [bootUpHandler_act s now hc.1 hc.2.1 hc.2.2]
    exact ⟨rfl, rfl⟩
  · rw [bootUpHandler_skip s now hc]
    exact ⟨rfl, rfl⟩

/-- The command handler never assigns the watchdog mode or the run interval. -/
theorem dispatchCommand_schedule (s : vOP) (now : Nat) :
    (dispatchCommand s now).1.watchdog_mode = s.watchdog_mode ∧
    (dispatchCommand s now).1.watchdog_run_interval = s.watchdog_run_interval := by
  by_cases hk : s.command ∈ knownCommands
  · simp only [knownCommands, List.mem_cons, List.mem_singleton, List.not_mem_nil,
      or_false] at hk
    rcases hk with h | h | h | h | h | h | h | h | h | h
    all_goals
      simp [dispatchCommand, h, CMD_GET_IGNITION_STATE,
        CMD_GET_LAST_IGNITION_CHANGE_SECONDS, CMD_GET_LAST_IGNITION_CHANGE_MINUTES, CMD_ECHO,
        CMD_PAT_WATCHDOG, CMD_DEBUG_SET_IGN_DETECT, CMD_DEBUG_SET_IGN_STATE,
        CMD_DEBUG_GET_IGN_DETECT, CMD_DEBUG_GET_TEST_VALUE, CMD_DEBUG_GET_WDT_STATE,
        resetWatchDog]
    all_goals (split <;> simp)
  · rw [(dispatchCommand_error_unknown s now hk).1]
    exact ⟨rfl, rfl⟩

theorem fillRequest_schedule (s : vOP) (now : Nat) :
    (fillRequest s now).1.watchdog_mode = s.watchdog_mode ∧
    (fillRequest s now).1.watchdog_run_interval = s.watchdog_run_interval := by
  unfold fillRequest
  by_cases hc : s.command_complete = 1
  · by_cases he : s.error_flag = 0
    · simp only [hc, he, if_true]
      exact dispatchCommand_schedule s now
    · simp only [hc, he, if_true, if_false]
      exact ⟨trivial, trivial⟩
  · simp only [hc, if_false]
    exact ⟨trivial, trivial⟩

/-- No event assigns the watchdog mode or the run interval. -/
theorem step_schedule (s : vOP) (e : Event) :
    (step s e).watchdog_mode = s.watchdog_mode ∧
    (step s e).watchdog_run_interval = s.watchdog_run_interval := by
  cases e with
  | iteration now pin =>
    show (loop s now pin).watchdog_mode = _ ∧ (loop s now pin).watchdog_run_interval = _
    unfold loop
    obtain ⟨b1, b2⟩ := bootUpHandler_schedule
      (watchDog (if s.debug_ign_debounce ≠ 0 then debounceIgnition s now pin else s) now) now
    obtain ⟨w1, w2⟩ := watchDog_schedule
      (if s.debug_ign_debounce ≠ 0 then debounceIgnition s now pin else s) now
    have hd : (if s.debug_ign_debounce ≠ 0 then debounceIgnition s now pin else s).watchdog_mode
          = s.watchdog_mode ∧
        (if s.debug_ign_debounce ≠ 0 then debounceIgnition s now pin
          else s).watchdog_run_interval = s.watchdog_run_interval := by
      by_cases hdbg : s.debug_ign_debounce ≠ 0
      · rw [if_pos hdbg]
        exact debounceIgnition_schedule s now pin
      · rw [if_neg hdbg]
        exact ⟨rfl, rfl⟩
    exact ⟨b1.trans (w1.trans hd.1), b2.trans (w2.trans hd.2)⟩
  | delivery bytes =>
    have hf := receiveLoop_frame bytes s 0
    unfold sameButFrame at hf
    show (receiveData s bytes).watchdog_mode = _ ∧ (receiveData s bytes).watchdog_run_interval = _
    unfold receiveData
    rw [hf]
    exact ⟨rfl, rfl⟩
  | request now => exact fillRequest_schedule s now

/-- Every state reached from the constructor's state has watchdog mode on and the
run interval 5 of the constructor. -/
theorem run_schedule (es : List Event) :
    ∀ s : vOP, (run s es).watchdog_mode = s.watchdog_mode ∧
      (run s es).watchdog_run_interval = s.watchdog_run_interval := by
  induction es with
  | nil => intro s; exact ⟨rfl, rfl⟩
  | cons e es ih =>
    intro s
    obtain ⟨h1, h2⟩ := ih (step s e)
    obtain ⟨g1, g2⟩ := step_schedule s e
    exact ⟨h1.trans g1, h2.trans g2⟩

/-- C24. Catch-up without overshoot. Whenever `watchDog` executes a check at
time `now`, the advanced `watchdog_next_run` does not pass `now`:
`(now - watchdog_next_run) mod 2^32` decreases by exactly
`watchdog_run_interval*1000` (the `unsigned int` product), which it was at least
equal to. Consequently, with watchdog mode on, that product not zero and
`e = (now - watchdog_next_run) mod 2^32`, in a run of `watchDog` calls at the
same clock value `now` exactly the first `floor(e / (watchdog_run_interval*1000))`
calls execute a check and no later call does. In every state reached from the
constructor's state by loop iterations, delivery events and fill events the mode
is on and the product is 5000, so there the first `floor(e / 5000)` calls
execute. -/
theorem catch_up_without_overshoot (s : vOP) (now : Nat) :
    (watchDogDue s now = true →
      mulUI s.watchdog_run_interval 1000 ≤ subUL now s.watchdog_next_run ∧
      subUL now (watchDog s now).watchdog_next_run
        = subUL now s.watchdog_next_run - mulUI s.watchdog_run_interval 1000) ∧
    (s.watchdog_mode = true → 0 < mulUI s.watchdog_run_interval 1000 →
      ∀ i : Nat,
        watchDogDue (watchDogPolls s (List.replicate i now)) now
          = decide (i < subUL now s.watchdog_next_run
              / mulUI s.watchdog_run_interval 1000)) ∧
    (∀ (param0 param1 : Nat) (es : List Event), s = run (construct param0 param1) es →
      ∀ i : Nat,
        watchDogDue (watchDogPolls s (List.replicate i now)) now
          = decide (i < subUL now s.watchdog_next_run / 5000)) := by
  refine ⟨watchDog_due_elapsed s now, fun hm hR i => watchDogPolls_catch_up now i s hm hR, ?_⟩
  intro param0 param1 es hs i
  obtain ⟨h1, h2⟩ := run_schedule es (construct param0 param1)
  have hm : s.watchdog_mode = true := by
    rw [hs, h1]
    rfl
  have hr : mulUI s.watchdog_run_interval 1000 = 5000 := by
    rw [hs, h2]
    show mulUI 5 1000 = 5000
    decide
  have := watchDogPolls_catch_up now i s hm (by rw [hr]; decide)
  rw [hr] at this
  exact this

theorem catch_up_without_overshoot_witness :
    (firstPatExample.watchdog_mode = true ∧
     0 < mulUI firstPatExample.watchdog_run_interval 1000 ∧
     subUL 17000 firstPatExample.watchdog_next_run
       / mulUI firstPatExample.watchdog_run_interval 1000 = 3) ∧
    watchDogDue (watchDogPolls firstPatExample (List.replicate 2 17000)) 17000 = true ∧
    watchDogDue (watchDogPolls firstPatExample (List.replicate 3 17000)) 17000 = false :=
  ⟨by decide,
   by
     rw [(catch_up_without_overshoot firstPatExample 17000).2.1 (by decide) (by decide) 2]
     decide,
   by
     rw [(catch_up_without_overshoot firstPatExample 17000).2.1 (by decide) (by decide) 3]
     decide⟩

end vOP
